import Mathlib

/-!
Verification development for the ns3-rit-mac repository (RIT MAC over an
IEEE 802.15.4-style WPAN).  The definitions below are a shallow embedding,
translated from the C++ sources under src/ns3-rit-mac/rit-wpan:

  * rit-wpan-nwk-header.cc : RitNwkHeader serialization (6-byte NWK header)
  * rit-wpan-net-device.cc : RitWpanNetDevice::SetRitModuleConfig
  * rit-wpan-nwk.cc        : RitSimpleRouting::SendRequest and handle maps
  * time-drift-applier.cc  : TimeDriftApplier::ApplyByRatio
  * rit-wpan-mac.cc        : RitWpanMac state machine (MLME-SET, MCPS-DATA,
                             PD-DATA, RIT cycle timers)

Machine integers are modelled as Nat with explicit `% 2^w` where the code
relies on wraparound (e.g. SequenceNumber8).  Simulator virtual time is
modelled as a rational number of nanoseconds; pending ns-3 `EventId`s are
modelled as `Option` of their expiry instant (`none` = expired/cancelled,
matching `IsPending`).  ns-3 `NS_ASSERT` statements are compiled out in
release builds; where a function is only ever entered under such an assert
the corresponding transition of the step relation carries the asserted
condition as a guard, and this is noted at the definition.
-/

namespace RitWpan

/-- 16-bit short MAC address, modelled as its two stored octets
(ns-3 Mac16Address `m_address[0]`, `m_address[1]`). -/
structure Mac16 where
  b0 : Nat
  b1 : Nat
deriving DecidableEq, Repr

/-- ns-3 `Mac16Address::IsBroadcast`: the address is ff:ff. -/
def Mac16.isBroadcast (a : Mac16) : Bool :=
  a.b0 == 0xFF && a.b1 == 0xFF

/-- ns-3 `Mac16Address::IsMulticast`: the topmost three bits of the first
octet are 100 (addresses 80:00 through 9f:ff). -/
def Mac16.isMulticast (a : Mac16) : Bool :=
  a.b0 / 32 == 4

/-- Both octets fit in a byte (the C++ type is uint8_t[2]). -/
def Mac16.wf (a : Mac16) : Prop :=
  a.b0 < 256 ∧ a.b1 < 256

/-- The broadcast short address ff:ff. -/
def broadcastAddr : Mac16 := ⟨0xFF, 0xFF⟩

/-!
## RitNwkHeader codec (rit-wpan-nwk-header.cc)

`Serialize` writes, in order, `WriteU16(m_rank)` (ns-3 `Buffer::Iterator::WriteU16`
emits the low octet first, then the high octet), then the two octets of the
source short address, then the two octets of the destination short address
(`WriteTo` copies the stored octets in order).  `Deserialize` reads the same
fields back and returns `i.GetDistanceFrom(start)`.  `GetSerializedSize`
returns 6.
-/

/-- The minimal rank-based NWK header: rank, source short address,
destination short address. -/
structure RitNwkHeader where
  rank : Nat
  src : Mac16
  dst : Mac16
deriving DecidableEq, Repr

/-- The rank fits in a uint16_t and the addresses are well-formed. -/
def RitNwkHeader.wf (h : RitNwkHeader) : Prop :=
  h.rank < 65536 ∧ h.src.wf ∧ h.dst.wf

/-- `RitNwkHeader::GetSerializedSize`. -/
def RitNwkHeader.getSerializedSize (_h : RitNwkHeader) : Nat := 6

/-- `RitNwkHeader::Serialize`: rank as two little-endian octets, then the
source address octets, then the destination address octets. -/
def RitNwkHeader.serialize (h : RitNwkHeader) : List Nat :=
  [h.rank % 256, h.rank / 256, h.src.b0, h.src.b1, h.dst.b0, h.dst.b1]

/-- `RitNwkHeader::Deserialize`: reads the six octets back in the same
order and reports the number of octets consumed.  Reading past the end of
the buffer is a soft failure (`none`). -/
def RitNwkHeader.deserialize (bytes : List Nat) : Option (RitNwkHeader × Nat) :=
  match bytes with
  | r0 :: r1 :: s0 :: s1 :: d0 :: d1 :: _ =>
      some (⟨r0 + 256 * r1, ⟨s0, s1⟩, ⟨d0, d1⟩⟩, 6)
  | _ => none

/-!
## Module configuration (rit-wpan-mac.h / rit-wpan-net-device.cc)
-/

/-- `RitWpanMacModuleConfig`: the feature-flag record chosen at install
time. -/
structure ModuleConfig where
  dataCsmaEnabled : Bool := false
  dataPreCsEnabled : Bool := false
  dataPreCsBEnabled : Bool := false
  beaconCsmaEnabled : Bool := false
  beaconPreCsEnabled : Bool := false
  beaconPreCsBEnabled : Bool := false
  continuousTxEnabled : Bool := false
  beaconRandomizeEnabled : Bool := false
  compactRitDataRequestEnabled : Bool := false
  beaconAckEnabled : Bool := false
deriving DecidableEq, Repr

/-- Number of data-family channel-access flags that are set
(`dataTxModes` counter in `RitWpanNetDevice::SetRitModuleConfig`). -/
def ModuleConfig.dataTxModes (c : ModuleConfig) : Nat :=
  (if c.dataCsmaEnabled then 1 else 0) + (if c.dataPreCsEnabled then 1 else 0) +
    (if c.dataPreCsBEnabled then 1 else 0)

/-- Number of beacon-family channel-access flags that are set
(`beaconTxModes` counter in `RitWpanNetDevice::SetRitModuleConfig`). -/
def ModuleConfig.beaconTxModes (c : ModuleConfig) : Nat :=
  (if c.beaconCsmaEnabled then 1 else 0) + (if c.beaconPreCsEnabled then 1 else 0) +
    (if c.beaconPreCsBEnabled then 1 else 0)

/-- `RitWpanNetDevice::SetRitModuleConfig`: more than one flag in either
family is a fatal configuration error (`NS_FATAL_ERROR`, raised before the
configuration is stored and before any event is scheduled — the function
schedules no events); otherwise the record is stored unchanged (and
propagated unchanged to the MAC by `RitWpanMac::SetModuleConfig`). -/
def setRitModuleConfig (config : ModuleConfig) : Except String ModuleConfig :=
  if config.dataTxModes > 1 then
    .error "Invalid module config: only one data channel-access flag may be set."
  else if config.beaconTxModes > 1 then
    .error "Invalid module config: only one beacon channel-access flag may be set."
  else
    .ok config

/-!
## RitSimpleRouting send path (rit-wpan-nwk.cc)

`SendRequest(packet, dst)` reads `m_nwkHandle.GetValue()` without ever
incrementing it (no statement in the repository modifies `m_nwkHandle`),
resets the retry counter for that handle, and delegates to the
three-argument overload, which allocates a fresh MAC handle
(`m_macHandle.GetValue(); m_macHandle++`, a wrapping `SequenceNumber8`),
prepends a `RitNwkHeader{rank, src=m_shortAddr, dst}`, records
`handle → (packet copy, dst)` and `msduHandle → handle`, and issues
MCPS-DATA.request with the ACK option.
-/

/-- A NWK-layer packet as handed to the MAC: the prepended rank header plus
the opaque upper-layer payload. -/
structure NwkPacket where
  hdr : RitNwkHeader
  payload : List Nat
deriving DecidableEq, Repr

/-- The MCPS-DATA.request issued by the NWK send path (short addressing,
ACK option set). -/
structure NwkMacRequest where
  msduHandle : Nat
  dstAddr : Mac16
  ackRequested : Bool
  pkt : NwkPacket
deriving DecidableEq, Repr

/-- State of `RitSimpleRouting` relevant to the send path: the two handle
counters and the three handle maps. -/
structure NwkSt where
  rank : Nat
  shortAddr : Mac16
  nwkHandle : Nat
  macHandle : Nat
  handleToPktMap : Nat → Option (NwkPacket × Mac16)
  retryCountMap : Nat → Option Nat
  msduToNwkHandleMap : Nat → Option Nat

/-- Three-argument `RitSimpleRouting::SendRequest(packet, dst, nwkHandle)`:
allocate a MAC handle (post-incrementing the wrapping `SequenceNumber8`),
prepend the rank header, register both handle maps, and return the
MCPS-DATA.request that is issued. -/
def sendRequestWithHandle (s : NwkSt) (payload : List Nat) (dst : Mac16)
    (nwkHandle : Nat) : NwkSt × NwkMacRequest :=
  let msduHandle := s.macHandle
  let pkt : NwkPacket := ⟨⟨s.rank, s.shortAddr, dst⟩, payload⟩
  ({ s with
      macHandle := (s.macHandle + 1) % 256
      handleToPktMap := fun h => if h = nwkHandle then some (pkt, dst) else s.handleToPktMap h
      msduToNwkHandleMap := fun h =>
        if h = msduHandle then some nwkHandle else s.msduToNwkHandleMap h },
    ⟨msduHandle, dst, true, pkt⟩)

/-- Two-argument `RitSimpleRouting::SendRequest(packet, dst)`: read the
current NWK handle value (without modifying the counter), reset its retry
count to zero, and delegate. -/
def sendRequest (s : NwkSt) (payload : List Nat) (dst : Mac16) : NwkSt × NwkMacRequest :=
  let nwkHandle := s.nwkHandle
  let s1 := { s with
    retryCountMap := fun h => if h = nwkHandle then some 0 else s.retryCountMap h }
  sendRequestWithHandle s1 payload dst nwkHandle

/-!
## TimeDriftApplier (time-drift-applier.cc) and the periodic re-arm interval

`ApplyByRatio(inputTime, driftRatio)` takes `inputTimeMs =
inputTime.GetMilliSeconds()` (ns-3 `Time::GetMilliSeconds` divides the
internal nanosecond count by 10^6, truncating toward zero), draws a uniform
value in `[-inputTimeMs*ratio/100, +inputTimeMs*ratio/100]` and returns
`inputTime + MilliSeconds(randomDelay)`.  Time is modelled as an integer
number of nanoseconds; the random draw is an oracle parameter constrained
to the interval the code configures on its RNG; the final addition of
`randomDelay` milliseconds is modelled exactly.

`RitWpanMac::PeriodicRitDataRequest` computes the re-arm interval as
`clockDrift.Apply(period)` and, only when `beaconRandomizeEnabled` is set,
passes that value through `ApplyByRatio(·, 50.0)`.
-/

/-- `Time::GetMilliSeconds` on a time of `tNs` nanoseconds: integer
division by 10^6, truncating toward zero. -/
def timeGetMilliSeconds (tNs : Int) : Int :=
  Int.tdiv tNs 1000000

/-- The interval of values `TimeDriftApplier::ApplyByRatio` configures on
its uniform RNG: `[-inputTimeMs*ratio/100, +inputTimeMs*ratio/100]`
(milliseconds). -/
def drawInRange (tNs : Int) (ratioPct : ℚ) (draw : ℚ) : Prop :=
  -((timeGetMilliSeconds tNs : ℚ) * ratioPct / 100) ≤ draw ∧
    draw ≤ (timeGetMilliSeconds tNs : ℚ) * ratioPct / 100

/-- `TimeDriftApplier::ApplyByRatio`: the input time plus the drawn number
of milliseconds.  Result in nanoseconds (exact). -/
def applyByRatioPct (tNs : Int) (draw : ℚ) : ℚ :=
  (tNs : ℚ) + draw * 1000000

/-- The re-arm interval computed by one firing of
`RitWpanMac::PeriodicRitDataRequest`, as a function of the clock-drifted
period (nanoseconds) and the jitter draw: the drifted period itself when
beacon randomization is off, otherwise `ApplyByRatio(drifted, 50%)`. -/
def periodicNextInterval (cDriftedNs : Int) (beaconRandomize : Bool) (draw : ℚ) : ℚ :=
  if beaconRandomize then applyByRatioPct cDriftedNs draw else (cDriftedNs : ℚ)

/-!
## RitWpanMac state machine (rit-wpan-mac.cc)

The MAC engine is modelled as a record of the member variables the claims
depend on, together with one Lean function per C++ member function.
Virtual time is a rational number of nanoseconds; a pending `EventId` is
`some` of its expiry instant.  `TracedValue` wrappers and trace sources
are transparent.  `m_useTimeBasedRitParams` defaults to true and is never
assigned elsewhere in the repository.
-/

/-- `RitMacMode` (rit-wpan-mac.h). -/
inductive RitMacMode where
  | disabled
  | sender
  | receiver
  | sleep
  | bootstrap
deriving DecidableEq, Repr

/-- The base LrWpanMac states used by the RIT paths
(MAC_IDLE, MAC_CSMA, MAC_SENDING, MAC_ACK_PENDING). -/
inductive MacBaseState where
  | idle
  | csma
  | sending
  | ackPending
deriving DecidableEq, Repr

/-- ns-3 lr-wpan `AddressMode`: NO_PANID_ADDR = 0, ADDR_MODE_RESERVED = 1,
SHORT_ADDR = 2, EXT_ADDR = 3. -/
inductive AddressMode where
  | noPanidAddr
  | reserved
  | shortAddr
  | extAddr
deriving DecidableEq, Repr

/-- MAC frame types used by the RIT paths. -/
inductive FrameType where
  | beacon
  | data
  | ack
  | command
  | multipurpose
  | reserved
deriving DecidableEq, Repr

/-- Command payload header types relevant to RIT. -/
inductive CmdFrameType where
  | ritDataReq
  | ritDataRes
  | otherCmd
deriving DecidableEq, Repr

/-- The MAC header fields the RIT code reads and writes
(ns-3 `LrWpanMacHeader`). -/
structure MacHdr where
  ftype : FrameType
  seqNum : Nat
  frameVer : Nat := 0
  ackReq : Bool := false
  panIdComp : Bool := false
  secEnabled : Bool := false
  srcAddrMode : AddressMode := .noPanidAddr
  dstAddrMode : AddressMode := .noPanidAddr
  srcPanId : Nat := 0
  dstPanId : Nat := 0
  srcShortAddr : Mac16 := ⟨0, 0⟩
  dstShortAddr : Mac16 := ⟨0, 0⟩
  srcExtAddr : Nat := 0
  dstExtAddr : Nat := 0
deriving DecidableEq, Repr

/-- A MAC frame: header, optional command payload header, opaque payload,
and the FCS validity bit (result of `LrWpanMacTrailer::CheckFcs` on the
receive path; frames built locally carry a valid FCS). -/
structure Frame where
  hdr : MacHdr
  cmd : Option CmdFrameType := none
  payload : List Nat := []
  fcsOk : Bool := true
deriving DecidableEq, Repr

/-- `TxQueueElement`: MSDU handle plus the queued frame. -/
structure TxQueueElement where
  txQMsduHandle : Nat
  txQPkt : Frame
deriving DecidableEq, Repr

/-- The `SetLrWpanMacState` arguments reaching the RIT MAC: `idle`, `csma`
and `ackPending` are passed through `ScheduleNow(SetLrWpanMacState, ·)`;
`chanIdle` is the `CHANNEL_IDLE` argument, delivered synchronously by the
Pre-CS/Pre-CSB/CSMA CCA-confirm callbacks (rit-wpan-precs.cc:136, wired
at rit-wpan-net-device.cc:181-184) on a successful channel access, and
never scheduled through the `m_setMacState` slot. -/
inductive SetStateArg where
  | idle
  | csma
  | ackPending
  | chanIdle
deriving DecidableEq, Repr

/-- The action held by the (single) `m_setMacState` event slot: either a
scheduled `SetLrWpanMacState` or a scheduled `SendAck`. -/
inductive ImmediateAct where
  | setState (arg : SetStateArg)
  | sendAck (seq : Nat)
deriving DecidableEq, Repr

/-- MAC status codes appearing in MCPS-DATA.confirm. -/
inductive MacStatus where
  | success
  | frameTooLong
  | invalidAddress
  | invalidParameter
  | channelAccessFailure
  | noAck
deriving DecidableEq, Repr

/-- PLME-SET-TRX-STATE.request values the RIT code issues. -/
inductive TrxReq where
  | txOn
  | rxOn
  | forceTrxOff
deriving DecidableEq, Repr

/-- The RitWpanMac member variables used by the verified claims.  Events
are `Option` of their expiry instant (`IsPending` = `isSome`). -/
structure MacSt where
  now : ℚ
  ritMacMode : RitMacMode
  macState : MacBaseState
  txQueue : List TxQueueElement
  txPkt : Option Frame
  rxPkt : Option Frame
  periodicRitDataRequestEvent : Option ℚ
  ritDataWaitTimeout : Option ℚ
  ritTxWaitTimeout : Option ℚ
  ackWaitTimeout : Option ℚ
  ifsEvent : Option ℚ
  setMacState : Option ImmediateAct
  macRitPeriod : Nat
  macRitDataWaitDuration : Nat
  macRitTxWaitDuration : Nat
  macRitRequestPayload : List Nat
  macRitPeriodTime : ℚ
  macRitDataWaitDurationTime : ℚ
  macRitTxWaitDurationTime : ℚ
  useTimeBasedRitParams : Bool
  ritSending : Bool
  continuousRxEnabled : Bool
  rxAlwaysOn : Bool
  rxOnWhenIdle : Bool
  macDsn : Nat
  shortAddress : Mac16
  macExtendedAddress : Nat
  macPanId : Nat
  macPromiscuousMode : Bool
  lastRxRitReqFrameSrcAddr : Mac16
  lastRxFrameLqi : Nat
  moduleConfig : ModuleConfig
  symbolRate : ℚ
  macAckWaitSymbols : Nat
  initialDelayDraw : ℚ
  csmaRunning : Bool
  preCsRunning : Bool
  preCsBRunning : Bool
  phyTrxRequest : Option TrxReq
  ritReqIndications : List (Mac16 × List Nat)
  dataIndications : List Frame
  dataConfirms : List (Nat × MacStatus)

/-- The MAC as built by the `RitWpanMac` constructor: mode Disabled, base
state Idle, no pending events, period 5 s, data wait 10 ms, TX wait
5000 ms, legacy PIB period 0, data-wait 1, tx-wait 65; time-based
parameters selected; O-QPSK 62500 symbols/s.  `initialDelayDraw` is the
oracle for the uniform initial-phase draw of `StartRitCycle`. -/
def initMacSt : MacSt where
  now := 0
  ritMacMode := .disabled
  macState := .idle
  txQueue := []
  txPkt := none
  rxPkt := none
  periodicRitDataRequestEvent := none
  ritDataWaitTimeout := none
  ritTxWaitTimeout := none
  ackWaitTimeout := none
  ifsEvent := none
  setMacState := none
  macRitPeriod := 0
  macRitDataWaitDuration := 1
  macRitTxWaitDuration := 65
  macRitRequestPayload := []
  macRitPeriodTime := 5000000000
  macRitDataWaitDurationTime := 10000000
  macRitTxWaitDurationTime := 5000000000
  useTimeBasedRitParams := true
  ritSending := false
  continuousRxEnabled := false
  rxAlwaysOn := false
  rxOnWhenIdle := false
  macDsn := 0
  shortAddress := ⟨0, 0⟩
  macExtendedAddress := 0
  macPanId := 0
  macPromiscuousMode := false
  lastRxRitReqFrameSrcAddr := ⟨0, 0⟩
  lastRxFrameLqi := 0
  moduleConfig := {}
  symbolRate := 62500
  macAckWaitSymbols := 120
  initialDelayDraw := 0
  csmaRunning := false
  preCsRunning := false
  preCsBRunning := false
  phyTrxRequest := none
  ritReqIndications := []
  dataIndications := []
  dataConfirms := []

/-- `RitWpanMac::IsRitModeEnabled`: the configured period is positive
(time-based parameter when `m_useTimeBasedRitParams`, legacy PIB value
otherwise). -/
def isRitModeEnabled (s : MacSt) : Bool :=
  if s.useTimeBasedRitParams then decide (0 < s.macRitPeriodTime)
  else decide (0 < s.macRitPeriod)

/-- `RitWpanMac::DurationToTime`: a legacy duration in units of
aBaseSuperframeDuration (960 symbols) converted to nanoseconds at the PHY
symbol rate. -/
def durationToTime (s : MacSt) (d : Nat) : ℚ :=
  (d : ℚ) * 960 * 1000000000 / s.symbolRate

/-- `RitWpanMac::GetRitPeriodTime`. -/
def ritPeriodTime (s : MacSt) : ℚ :=
  if s.useTimeBasedRitParams then s.macRitPeriodTime else durationToTime s s.macRitPeriod

/-- `RitWpanMac::GetRitDataWaitDurationTime`. -/
def ritDataWaitDurationTime (s : MacSt) : ℚ :=
  if s.useTimeBasedRitParams then s.macRitDataWaitDurationTime
  else durationToTime s s.macRitDataWaitDuration

/-- `RitWpanMac::GetRitTxWaitDurationTime`. -/
def ritTxWaitDurationTime (s : MacSt) : ℚ :=
  if s.useTimeBasedRitParams then s.macRitTxWaitDurationTime
  else durationToTime s s.macRitTxWaitDuration

/-- `RitWpanMac::GetContinuousTxTimeoutTime`: a constant 10 ms. -/
def continuousTxTimeoutNs : ℚ := 10000000

/-- `RitWpanMac::SetSleep`: force the base state to Idle; when RX-always-on
is enabled the radio is left on and the mode is not changed; otherwise
enter Sleep mode, force the transceiver off, and clear RX-on-when-idle. -/
def setSleep (s : MacSt) : MacSt :=
  let s1 := { s with macState := .idle }
  if s1.rxAlwaysOn then s1
  else { s1 with
    ritMacMode := .sleep
    phyTrxRequest := some .forceTrxOff
    rxOnWhenIdle := false }

/-- `RitWpanMac::EndSenderCycle`: cancel any remaining TX-wait timer,
clear the sending guard, and go to sleep. -/
def endSenderCycle (s : MacSt) : MacSt :=
  setSleep { s with ritTxWaitTimeout := none, ritSending := false }

/-- `RitWpanMac::EndReceiverCycle`: cancel the data-wait timer and go to
sleep. -/
def endReceiverCycle (s : MacSt) : MacSt :=
  setSleep { s with ritDataWaitTimeout := none }

/-- `RitWpanMac::StartRitDataWaitPeriod`: keep RX on, force the base MAC
to Idle, and arm the data-wait timeout for a full data-wait duration from
now — unless the configured duration is not positive, in which case no
timer is armed. -/
def startRitDataWaitPeriod (s : MacSt) : MacSt :=
  let s1 := { s with rxOnWhenIdle := true, macState := .idle }
  let hasValidWait :=
    if s1.useTimeBasedRitParams then decide (0 < s1.macRitDataWaitDurationTime)
    else decide (0 < s1.macRitDataWaitDuration)
  if hasValidWait then
    { s1 with ritDataWaitTimeout := some (s1.now + ritDataWaitDurationTime s1) }
  else s1

/-- `RitWpanMac::StartRitTxWaitPeriod`: keep RX on, force the base MAC to
Idle, and arm the TX-wait timeout — unless the configured duration is not
positive. -/
def startRitTxWaitPeriod (s : MacSt) : MacSt :=
  let s1 := { s with rxOnWhenIdle := true, macState := .idle }
  let hasValidWait :=
    if s1.useTimeBasedRitParams then decide (0 < s1.macRitTxWaitDurationTime)
    else decide (0 < s1.macRitTxWaitDuration)
  if hasValidWait then
    { s1 with ritTxWaitTimeout := some (s1.now + ritTxWaitDurationTime s1) }
  else s1

/-- `RitWpanMac::CheckTxAndStartSender`: false when the queue is empty;
otherwise switch to Sender mode and open the TX-wait window. -/
def checkTxAndStartSender (s : MacSt) : Bool × MacSt :=
  if s.txQueue.isEmpty then (false, s)
  else (true, startRitTxWaitPeriod { s with ritMacMode := .sender })

/-- `RitWpanMac::StartRitCycle`: when the base MAC is not Idle the start is
deferred (nothing happens); otherwise enter Sleep mode, clear
RX-on-when-idle, and schedule the first periodic RIT data request after a
uniformly drawn initial phase (the oracle `initialDelayDraw`). -/
def startRitCycle (s : MacSt) : MacSt :=
  if s.macState ≠ .idle then s
  else { s with
    ritMacMode := .sleep
    rxOnWhenIdle := false
    periodicRitDataRequestEvent := some (s.now + s.initialDelayDraw) }

/-- `RitWpanMac::StopRitCycle`: cancel the periodic event and both wait
windows, set the mode to Disabled, and leave the base MAC Idle. -/
def stopRitCycle (s : MacSt) : MacSt :=
  { s with
    periodicRitDataRequestEvent := none
    ritDataWaitTimeout := none
    ritTxWaitTimeout := none
    ritMacMode := .disabled
    macState := .idle }

/-- `RitWpanMac::DoInitialize`: forces the mode to Sleep (the clock-drift
initialization and the base-class chain-up do not touch the modelled
fields). -/
def doInitStep (s : MacSt) : MacSt :=
  { s with ritMacMode := .sleep }

/-- The RIT-range PIB attributes handled locally by MLME-SET (id ≥ 0xF0). -/
inductive RitAttr where
  | period (v : Nat)
  | dataWait (v : Nat)
  | txWait (v : Nat)
  | reqPayload (p : List Nat)
  | periodTime (t : ℚ)
  | dataWaitTime (t : ℚ)
  | txWaitTime (t : ℚ)
deriving DecidableEq, Repr

/-- `RitWpanMac::MlmeSetRequest` restricted to the RIT attribute range: the
new value is applied first; a zero period (either representation) stops the
RIT cycle, a positive one starts it if the mode is currently Disabled. -/
def mlmeSetRequest (s : MacSt) (a : RitAttr) : MacSt :=
  match a with
  | .period v =>
      let s1 := { s with macRitPeriod := v }
      if v = 0 then stopRitCycle s1
      else if s1.ritMacMode = .disabled then startRitCycle s1
      else s1
  | .dataWait v => { s with macRitDataWaitDuration := v }
  | .txWait v => { s with macRitTxWaitDuration := v }
  | .reqPayload p => { s with macRitRequestPayload := p }
  | .periodTime t =>
      let s1 := { s with macRitPeriodTime := t }
      if t = 0 then stopRitCycle s1
      else if s1.ritMacMode = .disabled then startRitCycle s1
      else s1
  | .dataWaitTime t => { s with macRitDataWaitDurationTime := t }
  | .txWaitTime t => { s with macRitTxWaitDurationTime := t }

/-- ns-3 lr-wpan constant `aMaxPhyPacketSize` (127 octets). -/
def aMaxPhyPacketSize : Nat := 127

/-- ns-3 lr-wpan constant `aMinMPDUOverhead` (9 octets). -/
def aMinMPDUOverhead : Nat := 9

/-- TX option bit masks: 0x01 = ACK, 0x02 = GTS, 0x04 = INDIRECT. -/
def txOptionAck : Nat := 1

/-- GTS TX option bit. -/
def txOptionGts : Nat := 2

/-- INDIRECT TX option bit. -/
def txOptionIndirect : Nat := 4

/-- MCPS-DATA.request parameters (the fields the RIT path reads). -/
structure McpsParams where
  srcAddrMode : AddressMode
  dstAddrMode : AddressMode
  dstPanId : Nat := 0
  dstAddr : Mac16 := ⟨0, 0⟩
  dstExtAddr : Nat := 0
  msduHandle : Nat := 0
  txOptions : Nat := 0
deriving DecidableEq, Repr

/-- Result of a call to `RitWpanMac::McpsDataRequest`: an immediate
failure confirm, a fatal `NS_ABORT_MSG`, a successful enqueue, or
delegation to the base MAC (RIT disabled). -/
inductive McpsOutcome where
  | confirmed (st : MacStatus)
  | aborted
  | enqueued
  | delegated
deriving DecidableEq, Repr

/-- The successful tail of `RitWpanMac::McpsDataRequest`: enqueue the
built frame and, only when the current mode is Sleep, opportunistically
try `CheckTxAndStartSender`. -/
def mcpsEnqueueFinish (s : MacSt) (msduHandle : Nat) (frame : Frame) : MacSt :=
  let s2 := { s with txQueue := s.txQueue ++ [⟨msduHandle, frame⟩] }
  if s2.ritMacMode = .sleep then (checkTxAndStartSender s2).2 else s2

/-- `RitWpanMac::McpsDataRequest`, translated clause by clause: the DSN is
consumed up front; oversize packets confirm FRAME_TOO_LONG; both address
modes none confirms INVALID_ADDRESS; a reserved source or destination mode
hits `NS_ABORT_MSG` (fatal); PAN compression applies when both PAN IDs are
present and equal; a requested ACK is forced off for broadcast/multicast
short destinations; the GTS or INDIRECT option bits confirm
INVALID_PARAMETER; otherwise the frame is enqueued and, only when the mode
is Sleep, `CheckTxAndStartSender` runs. -/
def mcpsDataRequest (s : MacSt) (params : McpsParams) (p : List Nat) :
    McpsOutcome × MacSt :=
  if ¬ isRitModeEnabled s then (.delegated, s)
  else
    let hdr0 : MacHdr := { ftype := .data, seqNum := s.macDsn }
    let s := { s with macDsn := (s.macDsn + 1) % 256 }
    if p.length > aMaxPhyPacketSize - aMinMPDUOverhead then
      (.confirmed .frameTooLong, s)
    else if params.srcAddrMode = .noPanidAddr ∧ params.dstAddrMode = .noPanidAddr then
      (.confirmed .invalidAddress, s)
    else
      match params.srcAddrMode with
      | .reserved => (.aborted, s)
      | _ =>
        let hdr1 : MacHdr :=
          match params.srcAddrMode with
          | .noPanidAddr => { hdr0 with srcAddrMode := .noPanidAddr, panIdComp := false }
          | .shortAddr =>
              { hdr0 with srcAddrMode := .shortAddr, srcPanId := s.macPanId, srcShortAddr := s.shortAddress }
          | .extAddr =>
              { hdr0 with srcAddrMode := .extAddr, srcPanId := s.macPanId, srcExtAddr := s.macExtendedAddress }
          | .reserved => hdr0
        match params.dstAddrMode with
        | .reserved => (.aborted, s)
        | _ =>
          let hdr2 : MacHdr :=
            match params.dstAddrMode with
            | .noPanidAddr => { hdr1 with dstAddrMode := .noPanidAddr, panIdComp := false }
            | .shortAddr =>
                { hdr1 with dstAddrMode := .shortAddr, dstPanId := params.dstPanId, dstShortAddr := params.dstAddr }
            | .extAddr =>
                { hdr1 with dstAddrMode := .extAddr, dstPanId := params.dstPanId, dstExtAddr := params.dstExtAddr }
            | .reserved => hdr1
          let hdr3 : MacHdr :=
            if params.dstAddrMode ≠ .noPanidAddr ∧ params.srcAddrMode ≠ .noPanidAddr ∧
                hdr2.dstPanId = hdr2.srcPanId then
              { hdr2 with panIdComp := true }
            else hdr2
          let hdr4 : MacHdr := { hdr3 with secEnabled := false }
          let hdr5 : MacHdr :=
            if params.txOptions &&& txOptionAck = txOptionAck then
              if hdr4.dstAddrMode = .shortAddr then
                if hdr4.dstShortAddr.isBroadcast || hdr4.dstShortAddr.isMulticast then
                  { hdr4 with ackReq := false }
                else { hdr4 with ackReq := true }
              else { hdr4 with ackReq := true }
            else { hdr4 with ackReq := false }
          if params.txOptions &&& txOptionGts = txOptionGts ∨
              params.txOptions &&& txOptionIndirect = txOptionIndirect then
            (.confirmed .invalidParameter, s)
          else
            (.enqueued, mcpsEnqueueFinish s params.msduHandle { hdr := hdr5, payload := p })

/-- ns-3 base `LrWpanMac::RemoveFirstTxQElement` (external dependency):
pops the queue head and clears `m_txPkt`. -/
def removeFirstTxQElement (s : MacSt) : MacSt :=
  { s with txQueue := s.txQueue.tail, txPkt := none }

/-- ns-3 base `LrWpanMac::CheckQueue` (external dependency): when the MAC
is Idle with no transmission, pending IFS, or pending state change, load
the queue head into `m_txPkt` and schedule the CSMA state. -/
def checkQueueBase (s : MacSt) : MacSt :=
  match s.txQueue.head? with
  | some e =>
      if s.txPkt = none ∧ s.macState = .idle ∧ s.ifsEvent = none ∧ s.setMacState = none then
        { s with txPkt := some e.txQPkt, setMacState := some (.setState .csma) }
      else s
  | none => s

/-- `RitWpanMac::DoSendRitData`: rewrite the queue head's destination to
the source of the most recently received RIT Data Request (short mode, own
PAN id), then dispatch through the data channel-access path when any data
CA flag is set, or directly to the PHY otherwise.  The function is entered
under `NS_ASSERT(mode = SENDER ∧ queue nonempty)`. -/
def doSendRitData (s : MacSt) : MacSt :=
  match s.txQueue with
  | [] => s
  | e :: rest =>
      let newHdr := { e.txQPkt.hdr with dstAddrMode := .shortAddr, dstPanId := s.macPanId, dstShortAddr := s.lastRxRitReqFrameSrcAddr }
      let newPkt := { e.txQPkt with hdr := newHdr }
      let s1 := { s with txQueue := ⟨e.txQMsduHandle, newPkt⟩ :: rest }
      if s1.moduleConfig.dataCsmaEnabled || s1.moduleConfig.dataPreCsEnabled ||
          s1.moduleConfig.dataPreCsBEnabled then
        checkQueueBase s1
      else { s1 with txPkt := some newPkt, macState := .sending, phyTrxRequest := some .txOn }

/-- `RitWpanMac::DoSendRitBeaconAck`: a compact multipurpose frame to the
last RIT requester, sent directly (entered under
`NS_ASSERT(macState = IDLE)`). -/
def doSendRitBeaconAck (s : MacSt) : MacSt :=
  let hdr : MacHdr := { ftype := .multipurpose, seqNum := s.macDsn, frameVer := 1, srcAddrMode := .noPanidAddr, dstAddrMode := .shortAddr, dstPanId := s.macPanId, dstShortAddr := s.lastRxRitReqFrameSrcAddr, panIdComp := true }
  let s1 := { s with macDsn := (s.macDsn + 1) % 256 }
  { s1 with txPkt := some ⟨hdr, none, [], true⟩, macState := .sending, phyTrxRequest := some .txOn }

/-- `RitWpanMac::SendRitData`: when the base MAC is Idle, set the sending
guard and emit either the Beacon ACK (when enabled) or the queued data;
otherwise skip. -/
def sendRitData (s : MacSt) : MacSt :=
  if s.macState = .idle then
    let s1 := { s with ritSending := true }
    if s1.moduleConfig.beaconAckEnabled then doSendRitBeaconAck s1 else doSendRitData s1
  else s

/-- The RIT Data Request command frame assembled by
`RitWpanMac::DoSendRitDataRequest`: frame version 1, source short
addressing; compact form has no destination field and PAN compression,
standard form broadcasts to ff:ff. -/
def buildBeaconFrame (s : MacSt) : Frame :=
  let hdrBase : MacHdr := { ftype := .command, seqNum := s.macDsn, frameVer := 1 }
  let hdr :=
    if s.moduleConfig.compactRitDataRequestEnabled then
      { hdrBase with srcAddrMode := .shortAddr, srcPanId := s.macPanId, srcShortAddr := s.shortAddress, dstAddrMode := .noPanidAddr, panIdComp := true }
    else
      { hdrBase with srcAddrMode := .shortAddr, srcPanId := s.macPanId, srcShortAddr := s.shortAddress, dstAddrMode := .shortAddr, dstPanId := s.macPanId, dstShortAddr := broadcastAddr }
  { hdr := hdr, cmd := some .ritDataReq, payload := s.macRitRequestPayload }

/-- `RitWpanMac::DoSendRitDataRequest`: build the beacon; with any beacon
CA flag set, hand to the CSMA state only when Idle with no pending state
change or IFS; otherwise transmit directly.  Entered under
`NS_ASSERT_MSG(macState = IDLE)`. -/
def doSendRitDataRequest (s : MacSt) : MacSt :=
  let pkt := buildBeaconFrame s
  let s1 := { s with macDsn := (s.macDsn + 1) % 256 }
  if s1.moduleConfig.beaconCsmaEnabled || s1.moduleConfig.beaconPreCsEnabled ||
      s1.moduleConfig.beaconPreCsBEnabled then
    if s1.macState = .idle ∧ s1.setMacState = none then
      if s1.ifsEvent = none then { s1 with txPkt := some pkt, setMacState := some (.setState .csma) }
      else s1
    else s1
  else { s1 with txPkt := some pkt, macState := .sending, phyTrxRequest := some .txOn }

/-- Body of `RitWpanMac::PeriodicRitDataRequest` once its event has fired:
re-arm the periodic event after `nextIv` (the clock-drifted, possibly
jittered interval — see `periodicNextInterval`), then skip when in Sender
mode, else switch to Sender when frames are queued, else enter Receiver
mode and send the RIT Data Request. -/
def periodicRitDataRequest (s : MacSt) (nextIv : ℚ) : MacSt :=
  let s1 := { s with periodicRitDataRequestEvent := some (s.now + nextIv) }
  if s1.ritMacMode = .sender then s1
  else
    let r := checkTxAndStartSender s1
    if r.1 then r.2
    else doSendRitDataRequest { s1 with ritMacMode := .receiver }

/-- `RitWpanMac::ReceiveCommand` for a received RIT Data Request: in
Sender mode with the sending guard clear, cancel the TX-wait timeout,
record the requester's source address, and deliver the
MLME-RIT-REQ.indication; otherwise ignore. -/
def receiveCommand (s : MacSt) (f : Frame) : MacSt :=
  match f.cmd with
  | some .ritDataReq =>
      if s.ritMacMode = .sender then
        if s.ritSending then s
        else { s with ritTxWaitTimeout := none, lastRxRitReqFrameSrcAddr := f.hdr.srcShortAddr, ritReqIndications := s.ritReqIndications ++ [(f.hdr.srcShortAddr, f.payload)] }
      else s
  | _ => s

/-- `RitWpanMac::ReceiveData`: ignore in Sender mode, otherwise deliver
MCPS-DATA.indication upward. -/
def receiveData (s : MacSt) (f : Frame) : MacSt :=
  if s.ritMacMode = .sender then s
  else { s with dataIndications := s.dataIndications ++ [f] }

/-- The level-3 acceptance filter of `RitWpanMac::PdDataIndication`
(IEEE 802.15.4-2006 section 7.5.6.2 as implemented by the RIT code). -/
def level3Accept (s : MacSt) (h : MacHdr) : Bool :=
  let a := decide (h.ftype ≠ .reserved)
  let a := a && decide (h.frameVer ≤ 1)
  let a :=
    if a && decide (h.dstAddrMode = .shortAddr ∨ h.dstAddrMode = .extAddr) then
      decide (h.dstPanId = s.macPanId ∨ h.dstPanId = 0xFFFF) ||
        (decide (s.macPanId = 0xFFFF) && decide (h.ftype = .command))
    else a
  let a :=
    if a && decide (h.dstAddrMode = .shortAddr) then
      if h.dstShortAddr = s.shortAddress then true
      else if (h.dstShortAddr.isBroadcast || h.dstShortAddr.isMulticast) &&
          decide (h.ftype = .command) then
        !h.ackReq
      else false
    else a
  let a :=
    if a && decide (h.dstAddrMode = .extAddr) then
      decide (h.dstExtAddr = s.macExtendedAddress)
    else a
  a

/-- ns-3 base `LrWpanMac::PrepareRetransmission` with
`macMaxFrameRetries = 0` as set by the RitWpanMac constructor (external
dependency): retries exhausted — confirm NO_ACK for the queue head and
remove it. -/
def prepareRetransmissionExhausted (s : MacSt) : MacSt :=
  let s1 :=
    match s.txQueue.head? with
    | some e => { s with dataConfirms := s.dataConfirms ++ [(e.txQMsduHandle, MacStatus.noAck)] }
    | none => s
  removeFirstTxQElement s1

/-- The acknowledged-data branch of `RitWpanMac::PdDataIndication`
(entered after `ReceiveData`): cancel a pending ACK wait (retries
exhausted) or an in-progress channel access, force the base MAC Idle,
record the received frame and its LQI, schedule `SendAck(seq)`, and
restart the data-wait timeout for a full duration. -/
def rxDataAckBranch (s1 : MacSt) (f : Frame) (lqi : Nat) : MacSt :=
  let s2 :=
    if s1.macState = .ackPending then
      prepareRetransmissionExhausted { s1 with ackWaitTimeout := none }
    else if s1.macState = .csma then
      { s1 with preCsBRunning := false, preCsRunning := false, csmaRunning := false }
    else s1
  let s3 := { s2 with setMacState := none, macState := .idle }
  let s4 := { s3 with rxPkt := some f, lastRxFrameLqi := lqi }
  let s5 := { s4 with setMacState := some (.sendAck f.hdr.seqNum) }
  { s5 with ritDataWaitTimeout := some (s5.now + ritDataWaitDurationTime s5) }

/-- The ACK-completion branch of `RitWpanMac::PdDataIndication`: an ACK
whose sequence number matches the pending transmission confirms SUCCESS
for the queue head, clears the sending guard and the ACK wait, schedules
Idle, pops the head and ends the sender cycle. -/
def rxAckBranch (s : MacSt) (f : Frame) : MacSt :=
  match s.txPkt with
  | none => s
  | some txf =>
      if f.hdr.seqNum = txf.hdr.seqNum then
        let s1 := { s with ritSending := false, ackWaitTimeout := none }
        let s2 :=
          match s1.txQueue.head? with
          | some e => { s1 with dataConfirms := s1.dataConfirms ++ [(e.txQMsduHandle, MacStatus.success)] }
          | none => s1
        let s3 := { s2 with setMacState := some (.setState .idle) }
        endSenderCycle (removeFirstTxQElement s3)
      else s

/-- `RitWpanMac::PdDataIndication`: FCS check, promiscuous check, level-3
filter, then dispatch: commands to `ReceiveCommand`; data in Receiver mode
to `ReceiveData` followed by the ACK handling (`rxDataAckBranch`) or,
without ACK request, `EndReceiverCycle`; multipurpose frames in Receiver
mode extend the data wait by the continuous-TX timeout; an ACK matching
the pending transmission completes it (`rxAckBranch`). -/
def pdDataIndication (s : MacSt) (f : Frame) (lqi : Nat) : MacSt :=
  if ¬ isRitModeEnabled s then s
  else if ¬ f.fcsOk then s
  else if s.macPromiscuousMode then s
  else if ¬ level3Accept s f.hdr then s
  else if f.hdr.ftype = .command then receiveCommand s f
  else if f.hdr.ftype = .data ∧ s.ritMacMode = .receiver then
    if f.hdr.ackReq then rxDataAckBranch (receiveData s f) f lqi
    else endReceiverCycle (receiveData s f)
  else if f.hdr.ftype = .multipurpose then
    if s.ritMacMode = .receiver then
      { s with ritDataWaitTimeout := some (s.now + continuousTxTimeoutNs) }
    else s
  else if f.hdr.ftype = .ack ∧ s.macState = .ackPending then rxAckBranch s f
  else s

/-- The ACK wait duration `GetMacAckWaitDuration() / symbolRate` in
nanoseconds. -/
def macAckWaitTime (s : MacSt) : ℚ :=
  (s.macAckWaitSymbols : ℚ) * 1000000000 / s.symbolRate

/-- The common tail of `RitWpanMac::PdDataConfirm`: cancel any pending
state-change event and schedule MAC_IDLE now. -/
def scheduleBottomIdle (s : MacSt) : MacSt :=
  { s with setMacState := some (.setState .idle) }

/-- MCPS-DATA.confirm(SUCCESS) for the queue head. -/
def confirmFrontSuccess (s : MacSt) : MacSt :=
  match s.txQueue.head? with
  | some e => { s with dataConfirms := s.dataConfirms ++ [(e.txQMsduHandle, MacStatus.success)] }
  | none => s

/-- `RitWpanMac::PdDataConfirm`: completes the transmission held in
`m_txPkt` (entered under `NS_ASSERT(macState = SENDING)`).  A confirmed
RIT Data Request starts the data wait; confirmed ACK-required data arms
the ACK wait; confirmed plain data confirms SUCCESS and either continues
(continuous TX with a non-empty queue — dispatching the next frame
directly) or ends the sender cycle; a confirmed sent ACK ends the receiver
cycle (or extends it in continuous mode); failures drop the packet. -/
def pdDataConfirm (s : MacSt) (ok : Bool) : MacSt :=
  if ¬ isRitModeEnabled s then s
  else
    match s.txPkt with
    | none => s
    | some f =>
        if ok then
          if f.hdr.ftype ≠ .ack then
            if f.hdr.ftype = .command then
              if f.cmd = some .ritDataReq then scheduleBottomIdle (startRitDataWaitPeriod s)
              else scheduleBottomIdle s
            else if f.hdr.ftype = .data then
              if f.hdr.ackReq then
                { s with ackWaitTimeout := some (s.now + macAckWaitTime s), setMacState := some (.setState .ackPending) }
              else
                let s1 := confirmFrontSuccess { s with ritSending := false }
                if s1.moduleConfig.continuousTxEnabled && !s1.txQueue.isEmpty then
                  doSendRitData s1
                else scheduleBottomIdle (endSenderCycle (removeFirstTxQElement s1))
            else if f.hdr.ftype = .multipurpose then
              scheduleBottomIdle { s with ifsEvent := some (s.now + 1) }
            else scheduleBottomIdle s
          else
            let s1 := { s with txPkt := none }
            if s1.moduleConfig.continuousTxEnabled && s1.continuousRxEnabled then
              { s1 with ritDataWaitTimeout := some (s1.now + continuousTxTimeoutNs) }
            else scheduleBottomIdle (endReceiverCycle s1)
        else scheduleBottomIdle { s with txPkt := none }

/-- `RitWpanMac::AckWaitTimeout`: in Sender mode, clear the sending guard,
run the base timeout path (which, with zero MAC retries, confirms NO_ACK,
removes the head, and returns the base MAC to Idle), then end the sender
cycle; in any other RIT mode only log. -/
def ackWaitTimeoutFn (s : MacSt) : MacSt :=
  if ¬ isRitModeEnabled s then { prepareRetransmissionExhausted s with macState := .idle }
  else if s.ritMacMode ≠ .sender then s
  else
    endSenderCycle
      { prepareRetransmissionExhausted { s with ritSending := false } with macState := .idle }

/-- The CHANNEL_ACCESS_FAILURE branch of `RitWpanMac::SetLrWpanMacState`
(reached from the channel-access chain while in the CSMA state): a data
frame confirms CHANNEL_ACCESS_FAILURE, drops the head and ends the sender
cycle; a failed RIT Data Request beacon ends the receiver cycle. -/
def channelAccessFailureFn (s : MacSt) : MacSt :=
  match s.txPkt with
  | none => s
  | some f =>
      if f.hdr.ftype = .data then
        let s1 :=
          match s.txQueue.head? with
          | some e => { s with dataConfirms := s.dataConfirms ++ [(e.txQMsduHandle, MacStatus.channelAccessFailure)] }
          | none => s
        endSenderCycle (removeFirstTxQElement s1)
      else if f.hdr.ftype = .command then
        if f.cmd = some .ritDataReq then endReceiverCycle s else s
      else s

/-- The base `LrWpanMac::SetLrWpanMacState` effect for the state arguments
reaching the RIT MAC (external dependency; `RitWpanMac::SetLrWpanMacState`
delegates every argument other than a CHANNEL_ACCESS_FAILURE-in-CSMA to
the base class, rit-wpan-mac.cc:1072-1076).  The CSMA argument also turns
the receiver on for the subsequent CCA; the CHANNEL_IDLE argument is the
base channel-access success branch, entering Sending and requesting PHY
TX-on. -/
def setMacStateBase (s : MacSt) (arg : SetStateArg) : MacSt :=
  match arg with
  | .idle => { s with macState := .idle }
  | .csma => { s with macState := .csma, phyTrxRequest := some .rxOn }
  | .ackPending => { s with macState := .ackPending }
  | .chanIdle => { s with macState := .sending, phyTrxRequest := some .txOn }

/-- The ACK frame built by the base `LrWpanMac::SendAck` (external
dependency). -/
def sendAckFrame (seq : Nat) : Frame :=
  ⟨{ ftype := .ack, seqNum := seq }, none, [], true⟩

/-- Execute the action held in the `m_setMacState` event slot when it
fires: a scheduled state change dispatches through `SetLrWpanMacState`
(for the scheduled arguments this is the base behavior), a scheduled
`SendAck` loads the ACK frame and enters Sending (the base `SendAck`
asserts macState = IDLE at entry). -/
def execImmediate (s : MacSt) (act : ImmediateAct) : MacSt :=
  match act with
  | .setState arg => setMacStateBase s arg
  | .sendAck seq =>
      { s with txPkt := some (sendAckFrame seq), macState := .sending, phyTrxRequest := some .txOn }

/-- `RitWpanMac::IfsWaitTimeout` (RIT-enabled paths): in Sender mode
dispatch the next RIT data frame, in Sleep mode opportunistically start
the sender, otherwise fall back to the base behavior (no RIT effect). -/
def ifsWaitTimeoutFn (s : MacSt) : MacSt :=
  if s.ritMacMode = .sender then doSendRitData s
  else if s.ritMacMode = .sleep then (checkTxAndStartSender s).2
  else s

/-- Labels for the operations of the RIT MAC transition system. -/
inductive RitOp where
  | mlmeSet (a : RitAttr)
  | doInit
  | periodicFire (nextIv : ℚ)
  | mcpsRequest (params : McpsParams) (p : List Nat)
  | dataWaitFire
  | txWaitFire
  | ackWaitFire
  | ifsFire
  | stateEventFire
  | pdIndication (f : Frame) (lqi : Nat)
  | pdConfirm (ok : Bool)
  | sendRitDataCall
  | chanAccessFailure
  | chanAccessSuccess
deriving DecidableEq, Repr

/-- One atomic operation of the RIT MAC: each constructor applies the
corresponding member function, with the event-pending conditions and the
function's `NS_ASSERT` preconditions as guards (release builds compile the
asserts out; executions violating them are outside this relation).  Timer
fires reset `now` to the expiry instant and consume the event before the
body runs (the event is no longer pending inside its own callback).  Both
outcomes of the channel-access chain are transitions: the
CHANNEL_ACCESS_FAILURE callback, which the RIT code overrides, and the
CHANNEL_IDLE success callback (rit-wpan-precs.cc:136), which
`RitWpanMac::SetLrWpanMacState` delegates to the base CSMA → Sending
transition.  The CCA-confirm callbacks deliver CHANNEL_IDLE synchronously
while the MAC is in the CSMA state; nothing ever schedules it through the
`m_setMacState` slot, which `stateEventFire` reflects as a guard. -/
inductive RitStep : RitOp → MacSt → MacSt → Prop where
  | mlmeSet (a : RitAttr) (s : MacSt) :
      RitStep (.mlmeSet a) s (mlmeSetRequest s a)
  | doInit (s : MacSt) :
      RitStep .doInit s (doInitStep s)
  | periodicFire (nextIv tf : ℚ) (s : MacSt)
      (hp : s.periodicRitDataRequestEvent = some tf)
      (hen : isRitModeEnabled s = true)
      (hidle : s.ritMacMode ≠ .sender → s.txQueue = [] → s.macState = .idle) :
      RitStep (.periodicFire nextIv) s
        (periodicRitDataRequest { s with now := tf, periodicRitDataRequestEvent := none } nextIv)
  | mcpsRequest (params : McpsParams) (p : List Nat) (s : MacSt) :
      RitStep (.mcpsRequest params p) s (mcpsDataRequest s params p).2
  | dataWaitFire (tf : ℚ) (s : MacSt)
      (hp : s.ritDataWaitTimeout = some tf)
      (hmode : s.ritMacMode = .receiver) :
      RitStep .dataWaitFire s (endReceiverCycle { s with now := tf, ritDataWaitTimeout := none })
  | txWaitFire (tf : ℚ) (s : MacSt)
      (hp : s.ritTxWaitTimeout = some tf)
      (hmode : s.ritMacMode = .sender) :
      RitStep .txWaitFire s (endSenderCycle { s with now := tf, ritTxWaitTimeout := none })
  | ackWaitFire (tf : ℚ) (s : MacSt)
      (hp : s.ackWaitTimeout = some tf) :
      RitStep .ackWaitFire s (ackWaitTimeoutFn { s with now := tf, ackWaitTimeout := none })
  | ifsFire (tf : ℚ) (s : MacSt)
      (hp : s.ifsEvent = some tf)
      (hsq : s.ritMacMode = .sender → s.txQueue ≠ [] ∧ s.macState = .idle) :
      RitStep .ifsFire s (ifsWaitTimeoutFn { s with now := tf, ifsEvent := none })
  | stateEventFire (act : ImmediateAct) (s : MacSt)
      (hp : s.setMacState = some act)
      (hack : ∀ seq, act = .sendAck seq → s.macState = .idle)
      (hni : act ≠ .setState .chanIdle) :
      RitStep .stateEventFire s (execImmediate { s with setMacState := none } act)
  | pdIndication (f : Frame) (lqi : Nat) (s : MacSt)
      (hst : s.macState = .idle ∨ s.macState = .ackPending ∨ s.macState = .csma)
      (hmd : isRitModeEnabled s = true → s.ritMacMode ≠ .disabled) :
      RitStep (.pdIndication f lqi) s (pdDataIndication s f lqi)
  | pdConfirm (ok : Bool) (s : MacSt)
      (hst : s.macState = .sending)
      (hmd : isRitModeEnabled s = true → s.ritMacMode ≠ .disabled) :
      RitStep (.pdConfirm ok) s (pdDataConfirm s ok)
  | sendRitDataCall (s : MacSt)
      (hmode : s.ritMacMode = .sender)
      (hq : s.txQueue ≠ []) :
      RitStep .sendRitDataCall s (sendRitData s)
  | chanAccessFailure (s : MacSt)
      (hst : s.macState = .csma)
      (hen : isRitModeEnabled s = true)
      (hmd : s.ritMacMode ≠ .disabled) :
      RitStep .chanAccessFailure s (channelAccessFailureFn s)
  | chanAccessSuccess (s : MacSt)
      (hst : s.macState = .csma) :
      RitStep .chanAccessSuccess s (setMacStateBase s .chanIdle)

/-- The periodic-event invariant of claim C3: the periodic RIT data request
event is pending exactly when the RIT mode is not Disabled. -/
def periodicPendingInv (s : MacSt) : Prop :=
  s.periodicRitDataRequestEvent.isSome = true ↔ s.ritMacMode ≠ .disabled

end RitWpan

namespace RitWpan

/-- C9: For every RitNwkHeader whose fields fit their wire types,
deserializing the serialization yields an equal header having consumed
exactly 6 octets, the serialized form is exactly 6 octets, and
GetSerializedSize reports 6 (rank u16 little-endian, then src u16, then
dst u16). -/
theorem c9_nwk_header_roundtrip (h : RitNwkHeader) (hwf : h.wf) :
    RitNwkHeader.deserialize h.serialize = some (h, 6) ∧
      h.serialize.length = 6 ∧ h.getSerializedSize = 6 := by
  obtain ⟨hr, _, _⟩ := hwf
  refine ⟨?_, rfl, rfl⟩
  simp only [RitNwkHeader.serialize, RitNwkHeader.deserialize]
  have : h.rank % 256 + 256 * (h.rank / 256) = h.rank := Nat.mod_add_div h.rank 256
  simp [this]

/-- Witness for C9 at a concrete header. -/
theorem c9_nwk_header_roundtrip_witness :
    RitNwkHeader.deserialize (RitNwkHeader.serialize ⟨513, ⟨0, 1⟩, ⟨0, 2⟩⟩) =
        some (⟨513, ⟨0, 1⟩, ⟨0, 2⟩⟩, 6) ∧
      (RitNwkHeader.serialize ⟨513, ⟨0, 1⟩, ⟨0, 2⟩⟩).length = 6 ∧
      RitNwkHeader.getSerializedSize ⟨513, ⟨0, 1⟩, ⟨0, 2⟩⟩ = 6 :=
  c9_nwk_header_roundtrip ⟨513, ⟨0, 1⟩, ⟨0, 2⟩⟩ ⟨by norm_num, ⟨by norm_num, by norm_num⟩, by norm_num, by norm_num⟩

/-- C8: installing a module configuration with more than one data-family
flag, or more than one beacon-family flag, is rejected with a fatal
configuration error (no configuration is stored, no event scheduled); a
configuration with at most one flag per family is accepted and stored
unchanged. -/
theorem c8_module_config_exclusive (c : ModuleConfig) :
    ((c.dataTxModes > 1 ∨ c.beaconTxModes > 1) → ∃ e, setRitModuleConfig c = .error e) ∧
      (c.dataTxModes ≤ 1 → c.beaconTxModes ≤ 1 → setRitModuleConfig c = .ok c) := by
  constructor
  · rintro (hd | hb)
    · exact ⟨"Invalid module config: only one data channel-access flag may be set.",
        by simp [setRitModuleConfig, hd]⟩
    · by_cases hd : c.dataTxModes > 1
      · exact ⟨"Invalid module config: only one data channel-access flag may be set.",
          by simp [setRitModuleConfig, hd]⟩
      · exact ⟨"Invalid module config: only one beacon channel-access flag may be set.",
          by simp [setRitModuleConfig, hd, hb]⟩
  · intro hd hb
    simp [setRitModuleConfig, Nat.not_lt.mpr hd, Nat.not_lt.mpr hb]

/-- Witness for C8: a config with data CSMA and data Pre-CS both set is
rejected; the all-false config is accepted unchanged. -/
theorem c8_module_config_exclusive_witness :
    (∃ e, setRitModuleConfig { dataCsmaEnabled := true, dataPreCsEnabled := true } = .error e) ∧
      setRitModuleConfig {} = .ok {} :=
  ⟨(c8_module_config_exclusive
      { dataCsmaEnabled := true, dataPreCsEnabled := true }).1 (Or.inl (by decide)),
    (c8_module_config_exclusive {}).2 (by decide) (by decide)⟩

/-- C7: each firing of the periodic RIT event re-arms itself after the
clock-drifted period when beacon randomization is off; when it is on, the
re-arm interval lies in [0.5, 1.5] times the clock-drifted period for every
possible draw of the jitter random variable (ApplyByRatio at ratio 50%). -/
theorem c7_periodic_interval (cDriftedNs : Int) (beaconRandomize : Bool) (draw : ℚ)
    (ht : 0 ≤ cDriftedNs) :
    (beaconRandomize = false →
        periodicNextInterval cDriftedNs beaconRandomize draw = (cDriftedNs : ℚ)) ∧
      (beaconRandomize = true → drawInRange cDriftedNs 50 draw →
        (cDriftedNs : ℚ) / 2 ≤ periodicNextInterval cDriftedNs beaconRandomize draw ∧
          periodicNextInterval cDriftedNs beaconRandomize draw ≤ 3 * (cDriftedNs : ℚ) / 2) := by
  constructor
  · intro hb
    simp [periodicNextInterval, hb]
  · intro hb hdraw
    obtain ⟨hlo, hhi⟩ := hdraw
    set m : Int := timeGetMilliSeconds cDriftedNs with hm
    set r : Int := Int.tmod cDriftedNs 1000000 with hr
    have hsplit : (1000000 : Int) * m + r = cDriftedNs := by
      simpa [hm, hr, timeGetMilliSeconds] using Int.tdiv_add_tmod cDriftedNs 1000000
    have hr0 : (0 : Int) ≤ r := by
      rw [hr]
      exact Int.tmod_nonneg _ ht
    have hmZ : m * 1000000 ≤ cDriftedNs := by omega
    have hmQ : (m : ℚ) * 1000000 ≤ (cDriftedNs : ℚ) := by exact_mod_cast hmZ
    simp only [periodicNextInterval, hb, if_true, applyByRatioPct]
    constructor
    · linarith [hlo, hmQ]
    · linarith [hhi, hmQ]

/-- Witness for C7 at a concrete drifted period (3.5 ms) and draw (-1 ms):
the draw is in the configured range and the bounds hold. -/
theorem c7_periodic_interval_witness :
    (0 : Int) ≤ 3500000 ∧
      (periodicNextInterval 3500000 false 0 = (3500000 : ℚ)) ∧
      drawInRange 3500000 50 (-1) ∧
      ((3500000 : ℚ) / 2 ≤ periodicNextInterval 3500000 true (-1) ∧
        periodicNextInterval 3500000 true (-1) ≤ 3 * (3500000 : ℚ) / 2) := by
  have ht : (0 : Int) ≤ 3500000 := by norm_num
  have hms : timeGetMilliSeconds 3500000 = 3 := by decide
  have hr : drawInRange 3500000 50 (-1) := by
    rw [drawInRange, hms]
    norm_num
  exact ⟨ht, (c7_periodic_interval 3500000 false 0 ht).1 rfl,
    hr, (c7_periodic_interval 3500000 true (-1) ht).2 rfl hr⟩

/-- C10: the two-argument SendRequest never modifies the NWK handle counter
and increments the MAC handle counter exactly once (mod 256); both the
first and a second SendRequest register under the same NWK handle value, so
a second call issued before the first confirm overwrites the first call's
handle-to-packet and retry-count map entries. -/
theorem c10_send_request_handles (s : NwkSt) (p1 p2 : List Nat) (d1 d2 : Mac16) :
    let s1 := (sendRequest s p1 d1).1
    let s2 := (sendRequest s1 p2 d2).1
    s1.nwkHandle = s.nwkHandle ∧
      s1.macHandle = (s.macHandle + 1) % 256 ∧
      s1.handleToPktMap s.nwkHandle = some (⟨⟨s.rank, s.shortAddr, d1⟩, p1⟩, d1) ∧
      s1.retryCountMap s.nwkHandle = some 0 ∧
      s2.nwkHandle = s.nwkHandle ∧
      s2.handleToPktMap s.nwkHandle = some (⟨⟨s.rank, s.shortAddr, d2⟩, p2⟩, d2) ∧
      s2.retryCountMap s.nwkHandle = some 0 := by
  simp [sendRequest, sendRequestWithHandle]

/-- C1 (counterexample to the claim as stated): MLME-SET of a positive
period (1 ns) while the mode is Disabled does not start the RIT cycle
when the base MAC is busy — here in the CSMA state, where a RIT-disabled
MAC sits during ordinary channel access — because `StartRitCycle`
(rit-wpan-mac.cc:1682) silently returns: no periodic event is scheduled
and the mode stays Disabled. -/
theorem c1_deferred_start_counterexample :
    ({ initMacSt with macState := MacBaseState.csma } : MacSt).ritMacMode = .disabled ∧
      (0 : ℚ) < 1 ∧
      (mlmeSetRequest { initMacSt with macState := MacBaseState.csma }
        (RitAttr.periodTime 1)).periodicRitDataRequestEvent = none ∧
      (mlmeSetRequest { initMacSt with macState := MacBaseState.csma }
        (RitAttr.periodTime 1)).ritMacMode = .disabled := by
  refine ⟨rfl, by norm_num, ?_, ?_⟩ <;>
    simp [mlmeSetRequest, startRitCycle, initMacSt]

/-- C1 (amended: the start half holds only from an Idle base MAC): MLME-SET
of macRitPeriodTime or macRitPeriod to zero cancels the periodic beacon
event, the receiver data-wait timeout, and the sender TX-wait timeout, and
sets the mode to Disabled — all within the same virtual instant (no time
passes); MLME-SET of a positive period while the mode is Disabled starts
the cycle when the base MAC is Idle (the periodic event becomes pending
and the mode becomes Sleep), and otherwise `StartRitCycle` silently
defers: nothing is scheduled and the mode stays Disabled. -/
theorem c1_period_zero_stops_cycle (s : MacSt) :
    ((mlmeSetRequest s (.periodTime 0)).periodicRitDataRequestEvent = none ∧
      (mlmeSetRequest s (.periodTime 0)).ritDataWaitTimeout = none ∧
      (mlmeSetRequest s (.periodTime 0)).ritTxWaitTimeout = none ∧
      (mlmeSetRequest s (.periodTime 0)).ritMacMode = .disabled ∧
      (mlmeSetRequest s (.periodTime 0)).now = s.now) ∧
    ((mlmeSetRequest s (.period 0)).periodicRitDataRequestEvent = none ∧
      (mlmeSetRequest s (.period 0)).ritDataWaitTimeout = none ∧
      (mlmeSetRequest s (.period 0)).ritTxWaitTimeout = none ∧
      (mlmeSetRequest s (.period 0)).ritMacMode = .disabled ∧
      (mlmeSetRequest s (.period 0)).now = s.now) ∧
    (∀ t : ℚ, 0 < t → s.ritMacMode = .disabled → s.macState = .idle →
      (mlmeSetRequest s (.periodTime t)).periodicRitDataRequestEvent.isSome = true ∧
        (mlmeSetRequest s (.periodTime t)).ritMacMode = .sleep) ∧
    (∀ v : Nat, 0 < v → s.ritMacMode = .disabled → s.macState = .idle →
      (mlmeSetRequest s (.period v)).periodicRitDataRequestEvent.isSome = true ∧
        (mlmeSetRequest s (.period v)).ritMacMode = .sleep) ∧
    (∀ t : ℚ, 0 < t → s.ritMacMode = .disabled → s.macState ≠ .idle →
      (mlmeSetRequest s (.periodTime t)).periodicRitDataRequestEvent =
          s.periodicRitDataRequestEvent ∧
        (mlmeSetRequest s (.periodTime t)).ritMacMode = .disabled) ∧
    (∀ v : Nat, 0 < v → s.ritMacMode = .disabled → s.macState ≠ .idle →
      (mlmeSetRequest s (.period v)).periodicRitDataRequestEvent =
          s.periodicRitDataRequestEvent ∧
        (mlmeSetRequest s (.period v)).ritMacMode = .disabled) := by
  refine ⟨?_, ?_, ?_, ?_, ?_, ?_⟩
  · simp [mlmeSetRequest, stopRitCycle]
  · simp [mlmeSetRequest, stopRitCycle]
  · intro t ht hmode hst
    have htne : t ≠ 0 := ne_of_gt ht
    simp [mlmeSetRequest, startRitCycle, htne, hmode, hst]
  · intro v hv hmode hst
    have hvne : v ≠ 0 := Nat.pos_iff_ne_zero.mp hv
    simp [mlmeSetRequest, startRitCycle, hvne, hmode, hst]
  · intro t ht hmode hst
    have htne : t ≠ 0 := ne_of_gt ht
    simp [mlmeSetRequest, startRitCycle, htne, hmode, hst]
  · intro v hv hmode hst
    have hvne : v ≠ 0 := Nat.pos_iff_ne_zero.mp hv
    simp [mlmeSetRequest, startRitCycle, hvne, hmode, hst]

/-- Witness for C1: the start at the freshly constructed MAC (mode
Disabled, base state Idle) with period 1 ns / PIB period 1, the stop on
a zero period, and the deferred start from the CSMA base state. -/
theorem c1_period_zero_stops_cycle_witness :
    ((mlmeSetRequest initMacSt (.periodTime 1)).periodicRitDataRequestEvent.isSome = true ∧
      (mlmeSetRequest initMacSt (.periodTime 1)).ritMacMode = .sleep) ∧
    ((mlmeSetRequest initMacSt (.period 1)).periodicRitDataRequestEvent.isSome = true ∧
      (mlmeSetRequest initMacSt (.period 1)).ritMacMode = .sleep) ∧
    (mlmeSetRequest initMacSt (.periodTime 0)).ritMacMode = .disabled ∧
    (mlmeSetRequest { initMacSt with macState := MacBaseState.csma }
      (.periodTime 1)).ritMacMode = .disabled :=
  ⟨(c1_period_zero_stops_cycle initMacSt).2.2.1 1 (by norm_num) rfl rfl,
    (c1_period_zero_stops_cycle initMacSt).2.2.2.1 1 (by norm_num) rfl rfl,
    (c1_period_zero_stops_cycle initMacSt).1.2.2.2.1,
    ((c1_period_zero_stops_cycle { initMacSt with macState := MacBaseState.csma }).2.2.2.2.1
      1 (by norm_num) rfl (by simp)).2⟩

/-- The TX queue is not changed by the base CheckQueue dispatch (it only
loads `m_txPkt` and schedules the CSMA state). -/
theorem checkQueueBase_txQueue (s : MacSt) : (checkQueueBase s).txQueue = s.txQueue := by
  simp only [checkQueueBase]
  split
  · split <;> rfl
  · rfl

/-- C4: in Sender mode, immediately before dispatch, DoSendRitData
rewrites the queue-head frame's destination short address to the source of
the most recently received (accepted) RIT Data Request, overriding the
destination stored at enqueue time (the payload is untouched); on the
direct (no channel-access) path that rewritten frame is exactly the one
loaded for transmission.  ReceiveCommand records the requester of each
accepted RIT Data Request, so a dispatch following such a reception
carries that requester's address as destination. -/
theorem c4_head_dst_rewritten (s : MacSt) (g : Frame) (e : TxQueueElement)
    (rest : List TxQueueElement)
    (hq : s.txQueue = e :: rest)
    (hmode : s.ritMacMode = .sender)
    (hsend : s.ritSending = false)
    (hcmd : g.cmd = some .ritDataReq) :
    (∃ pkt, (doSendRitData s).txQueue = ⟨e.txQMsduHandle, pkt⟩ :: rest ∧
      pkt.hdr.dstShortAddr = s.lastRxRitReqFrameSrcAddr ∧
      pkt.hdr.dstAddrMode = .shortAddr ∧
      pkt.hdr.dstPanId = s.macPanId ∧
      pkt.payload = e.txQPkt.payload ∧
      (s.moduleConfig.dataCsmaEnabled = false → s.moduleConfig.dataPreCsEnabled = false →
        s.moduleConfig.dataPreCsBEnabled = false → (doSendRitData s).txPkt = some pkt)) ∧
    (receiveCommand s g).lastRxRitReqFrameSrcAddr = g.hdr.srcShortAddr ∧
    (∃ pkt2, (doSendRitData (receiveCommand s g)).txQueue.head? =
        some ⟨e.txQMsduHandle, pkt2⟩ ∧
      pkt2.hdr.dstShortAddr = g.hdr.srcShortAddr) := by
  have hrw : receiveCommand s g =
      { s with ritTxWaitTimeout := none, lastRxRitReqFrameSrcAddr := g.hdr.srcShortAddr, ritReqIndications := s.ritReqIndications ++ [(g.hdr.srcShortAddr, g.payload)] } := by
    simp [receiveCommand, hcmd, hmode, hsend]
  refine ⟨⟨{ e.txQPkt with hdr := { e.txQPkt.hdr with dstAddrMode := .shortAddr, dstPanId := s.macPanId, dstShortAddr := s.lastRxRitReqFrameSrcAddr } }, ?_, rfl, rfl, rfl, rfl, ?_⟩, ?_, ⟨{ e.txQPkt with hdr := { e.txQPkt.hdr with dstAddrMode := .shortAddr, dstPanId := s.macPanId, dstShortAddr := g.hdr.srcShortAddr } }, ?_, rfl⟩⟩
  · simp only [doSendRitData, hq]
    split
    · rw [checkQueueBase_txQueue]
    · rfl
  · intro h1 h2 h3
    simp only [doSendRitData, hq, h1, h2, h3]
    rfl
  · rw [hrw]
  · rw [hrw]
    simp only [doSendRitData, hq]
    split
    · rw [checkQueueBase_txQueue]
      rfl
    · rfl

/-- Witness for C4 at a concrete sender-mode MAC with one queued frame and
a received RIT Data Request from 00:07. -/
theorem c4_head_dst_rewritten_witness :
    (∃ pkt, (doSendRitData { initMacSt with ritMacMode := .sender, txQueue := [⟨3, { hdr := { ftype := .data, seqNum := 0, dstAddrMode := .shortAddr, dstShortAddr := ⟨0, 9⟩ }, payload := [1, 2] }⟩], lastRxRitReqFrameSrcAddr := ⟨0, 7⟩ }).txQueue = ⟨3, pkt⟩ :: [] ∧
      pkt.hdr.dstShortAddr = ⟨0, 7⟩ ∧ pkt.hdr.dstAddrMode = .shortAddr ∧
      pkt.hdr.dstPanId = 0 ∧ pkt.payload = [1, 2] ∧
      (false = false → false = false → false = false →
        (doSendRitData { initMacSt with ritMacMode := .sender, txQueue := [⟨3, { hdr := { ftype := .data, seqNum := 0, dstAddrMode := .shortAddr, dstShortAddr := ⟨0, 9⟩ }, payload := [1, 2] }⟩], lastRxRitReqFrameSrcAddr := ⟨0, 7⟩ }).txPkt = some pkt)) := by
  have h := c4_head_dst_rewritten
    { initMacSt with ritMacMode := .sender, txQueue := [⟨3, { hdr := { ftype := .data, seqNum := 0, dstAddrMode := .shortAddr, dstShortAddr := ⟨0, 9⟩ }, payload := [1, 2] }⟩], lastRxRitReqFrameSrcAddr := ⟨0, 7⟩ }
    { hdr := { ftype := .command, seqNum := 2, srcAddrMode := .shortAddr, srcShortAddr := ⟨0, 7⟩ }, cmd := some .ritDataReq }
    ⟨3, { hdr := { ftype := .data, seqNum := 0, dstAddrMode := .shortAddr, dstShortAddr := ⟨0, 9⟩ }, payload := [1, 2] }⟩
    [] rfl rfl rfl rfl
  exact h.1

/-- C5: when a receiver-mode MAC accepts a data frame addressed to itself
with the ACK-request bit set, the data-wait timeout is re-armed to fire a
full data-wait duration after the current instant (a fresh restart,
independent of the old expiry), an ACK for the received sequence number is
scheduled, the receiver cycle stays open (mode remains Receiver, base MAC
forced Idle), and any in-progress CSMA is cancelled (all three
channel-access front-ends stopped when the frame arrived during CSMA). -/
theorem c5_data_wait_restart (s : MacSt) (f : Frame) (lqi : Nat)
    (hen : isRitModeEnabled s = true)
    (hfcs : f.fcsOk = true)
    (hpro : s.macPromiscuousMode = false)
    (hacc : level3Accept s f.hdr = true)
    (hdata : f.hdr.ftype = .data)
    (hdstm : f.hdr.dstAddrMode = .shortAddr)
    (hdst : f.hdr.dstShortAddr = s.shortAddress)
    (hmode : s.ritMacMode = .receiver)
    (hack : f.hdr.ackReq = true) :
    (pdDataIndication s f lqi).ritDataWaitTimeout =
        some (s.now + ritDataWaitDurationTime s) ∧
      (pdDataIndication s f lqi).setMacState = some (.sendAck f.hdr.seqNum) ∧
      (pdDataIndication s f lqi).ritMacMode = .receiver ∧
      (pdDataIndication s f lqi).macState = .idle ∧
      (s.macState = .csma →
        (pdDataIndication s f lqi).csmaRunning = false ∧
          (pdDataIndication s f lqi).preCsRunning = false ∧
          (pdDataIndication s f lqi).preCsBRunning = false) := by
  rcases hst : s.macState <;>
    rcases hh : s.txQueue.head? <;>
      simp [pdDataIndication, rxDataAckBranch, receiveData, prepareRetransmissionExhausted,
        removeFirstTxQElement, ritDataWaitDurationTime, durationToTime,
        hen, hfcs, hpro, hacc, hdata, hmode, hack, hst, hh]

/-- Witness for C5 at a concrete receiver (short address 00:01) accepting
an ACK-required data frame for itself. -/
theorem c5_data_wait_restart_witness :
    (pdDataIndication { initMacSt with ritMacMode := .receiver, shortAddress := ⟨0, 1⟩ } { hdr := { ftype := .data, seqNum := 9, dstAddrMode := .shortAddr, dstShortAddr := ⟨0, 1⟩, ackReq := true } } 200).ritDataWaitTimeout =
        some ((0 : ℚ) + ritDataWaitDurationTime { initMacSt with ritMacMode := .receiver, shortAddress := ⟨0, 1⟩ }) ∧
      (pdDataIndication { initMacSt with ritMacMode := .receiver, shortAddress := ⟨0, 1⟩ } { hdr := { ftype := .data, seqNum := 9, dstAddrMode := .shortAddr, dstShortAddr := ⟨0, 1⟩, ackReq := true } } 200).setMacState = some (.sendAck 9) ∧
      (pdDataIndication { initMacSt with ritMacMode := .receiver, shortAddress := ⟨0, 1⟩ } { hdr := { ftype := .data, seqNum := 9, dstAddrMode := .shortAddr, dstShortAddr := ⟨0, 1⟩, ackReq := true } } 200).ritMacMode = .receiver := by
  have h := c5_data_wait_restart
    { initMacSt with ritMacMode := .receiver, shortAddress := ⟨0, 1⟩ }
    { hdr := { ftype := .data, seqNum := 9, dstAddrMode := .shortAddr, dstShortAddr := ⟨0, 1⟩, ackReq := true } }
    200 (by decide) rfl rfl (by decide) rfl rfl rfl rfl rfl
  exact ⟨h.1, h.2.1, h.2.2.1⟩

/-- C2 (counterexample to the claim as stated): an MCPS-DATA.request with
a reserved source addressing mode does not confirm INVALID_ADDRESS — it
hits `NS_ABORT_MSG` (a fatal abort), as shown at the concrete input
{srcAddrMode = reserved, dstAddrMode = short} on a freshly constructed
RIT-enabled MAC with an empty payload. -/
theorem c2_reserved_mode_aborts :
    (mcpsDataRequest initMacSt { srcAddrMode := .reserved, dstAddrMode := .shortAddr } []).1 = .aborted ∧
      (mcpsDataRequest initMacSt { srcAddrMode := .reserved, dstAddrMode := .shortAddr } []).1 ≠
        .confirmed .invalidAddress := by
  have h1 : (mcpsDataRequest initMacSt { srcAddrMode := .reserved, dstAddrMode := .shortAddr } []).1 = McpsOutcome.aborted := rfl
  refine ⟨h1, ?_⟩
  rw [h1]
  simp

/-- C2 (amended): on a RIT-enabled MAC, an oversize packet confirms
FRAME_TOO_LONG; with both addressing modes none it confirms
INVALID_ADDRESS; a reserved source or destination mode triggers a fatal
`NS_ABORT_MSG` (not an INVALID_ADDRESS confirm); with valid modes, a set
GTS or INDIRECT tx-option bit confirms INVALID_PARAMETER; in every one of
these failure cases the TX queue is unchanged. -/
theorem c2_mcps_request_errors (s : MacSt) (params : McpsParams) (p : List Nat)
    (hen : isRitModeEnabled s = true) :
    (p.length > aMaxPhyPacketSize - aMinMPDUOverhead →
      (mcpsDataRequest s params p).1 = .confirmed .frameTooLong ∧
        (mcpsDataRequest s params p).2.txQueue = s.txQueue) ∧
    (p.length ≤ aMaxPhyPacketSize - aMinMPDUOverhead →
      params.srcAddrMode = .noPanidAddr → params.dstAddrMode = .noPanidAddr →
      (mcpsDataRequest s params p).1 = .confirmed .invalidAddress ∧
        (mcpsDataRequest s params p).2.txQueue = s.txQueue) ∧
    (p.length ≤ aMaxPhyPacketSize - aMinMPDUOverhead →
      ¬(params.srcAddrMode = .noPanidAddr ∧ params.dstAddrMode = .noPanidAddr) →
      (params.srcAddrMode = .reserved ∨ params.dstAddrMode = .reserved) →
      (mcpsDataRequest s params p).1 = .aborted ∧
        (mcpsDataRequest s params p).2.txQueue = s.txQueue) ∧
    (p.length ≤ aMaxPhyPacketSize - aMinMPDUOverhead →
      ¬(params.srcAddrMode = .noPanidAddr ∧ params.dstAddrMode = .noPanidAddr) →
      params.srcAddrMode ≠ .reserved → params.dstAddrMode ≠ .reserved →
      (params.txOptions &&& txOptionGts = txOptionGts ∨
        params.txOptions &&& txOptionIndirect = txOptionIndirect) →
      (mcpsDataRequest s params p).1 = .confirmed .invalidParameter ∧
        (mcpsDataRequest s params p).2.txQueue = s.txQueue) := by
  refine ⟨?_, ?_, ?_, ?_⟩
  · intro hlen
    simp [mcpsDataRequest, hen, hlen]
  · intro hlen hsm hdm
    simp [mcpsDataRequest, hen, Nat.not_lt.mpr hlen, hsm, hdm]
  · intro hlen hboth hres
    rcases hres with hres | hres
    · simp [mcpsDataRequest, hen, Nat.not_lt.mpr hlen, hres, hboth]
    · cases hsm : params.srcAddrMode <;>
        simp [mcpsDataRequest, hen, Nat.not_lt.mpr hlen, hres, hboth, hsm]
  · intro hlen hboth hsres hdres hopt
    have hopt2 : (params.txOptions &&& txOptionGts = txOptionGts ∨
        params.txOptions &&& txOptionIndirect = txOptionIndirect) := hopt
    cases hsm : params.srcAddrMode <;> cases hdm : params.dstAddrMode <;>
      simp_all [mcpsDataRequest, hen, Nat.not_lt.mpr hlen]

/-- Witness for C2 (amended) at concrete inputs: an oversize payload
confirms FRAME_TOO_LONG, and a GTS-flagged request confirms
INVALID_PARAMETER, each leaving the queue unchanged. -/
theorem c2_mcps_request_errors_witness :
    ((mcpsDataRequest initMacSt { srcAddrMode := .shortAddr, dstAddrMode := .shortAddr } (List.replicate 119 0)).1 = .confirmed .frameTooLong ∧
      (mcpsDataRequest initMacSt { srcAddrMode := .shortAddr, dstAddrMode := .shortAddr } (List.replicate 119 0)).2.txQueue = initMacSt.txQueue) ∧
    ((mcpsDataRequest initMacSt { srcAddrMode := .shortAddr, dstAddrMode := .shortAddr, dstAddr := ⟨0, 2⟩, txOptions := 2 } []).1 = .confirmed .invalidParameter ∧
      (mcpsDataRequest initMacSt { srcAddrMode := .shortAddr, dstAddrMode := .shortAddr, dstAddr := ⟨0, 2⟩, txOptions := 2 } []).2.txQueue = initMacSt.txQueue) :=
  ⟨(c2_mcps_request_errors initMacSt { srcAddrMode := .shortAddr, dstAddrMode := .shortAddr } (List.replicate 119 0) (by decide)).1 (by decide),
    (c2_mcps_request_errors initMacSt { srcAddrMode := .shortAddr, dstAddrMode := .shortAddr, dstAddr := ⟨0, 2⟩, txOptions := 2 } [] (by decide)).2.2.2 (by decide) (by decide) (by decide) (by decide) (Or.inl (by decide))⟩

set_option maxHeartbeats 2000000

/-- Field effects of SetSleep: the periodic event and the transmission
slot are untouched, the base MAC is forced Idle, and the mode either
becomes Sleep or stays unchanged (RX-always-on). -/
theorem setSleep_fields (s : MacSt) :
    (setSleep s).periodicRitDataRequestEvent = s.periodicRitDataRequestEvent ∧
      ((setSleep s).ritMacMode = .sleep ∨ (setSleep s).ritMacMode = s.ritMacMode) ∧
      (setSleep s).macState = .idle ∧ (setSleep s).txPkt = s.txPkt := by
  simp only [setSleep]
  split <;> simp

/-- Field effects of EndSenderCycle. -/
theorem endSenderCycle_fields (s : MacSt) :
    (endSenderCycle s).periodicRitDataRequestEvent = s.periodicRitDataRequestEvent ∧
      ((endSenderCycle s).ritMacMode = .sleep ∨ (endSenderCycle s).ritMacMode = s.ritMacMode) ∧
      (endSenderCycle s).macState = .idle ∧ (endSenderCycle s).txPkt = s.txPkt := by
  simp only [endSenderCycle, setSleep]
  split <;> simp

/-- Field effects of EndReceiverCycle. -/
theorem endReceiverCycle_fields (s : MacSt) :
    (endReceiverCycle s).periodicRitDataRequestEvent = s.periodicRitDataRequestEvent ∧
      ((endReceiverCycle s).ritMacMode = .sleep ∨ (endReceiverCycle s).ritMacMode = s.ritMacMode) ∧
      (endReceiverCycle s).macState = .idle ∧ (endReceiverCycle s).txPkt = s.txPkt := by
  simp only [endReceiverCycle, setSleep]
  split <;> simp

/-- Field effects of StartRitTxWaitPeriod. -/
theorem startRitTxWaitPeriod_fields (s : MacSt) :
    (startRitTxWaitPeriod s).periodicRitDataRequestEvent = s.periodicRitDataRequestEvent ∧
      (startRitTxWaitPeriod s).ritMacMode = s.ritMacMode ∧
      (startRitTxWaitPeriod s).macState = .idle ∧
      (startRitTxWaitPeriod s).txPkt = s.txPkt := by
  simp only [startRitTxWaitPeriod]
  repeat' split
  all_goals simp

/-- Field effects of StartRitDataWaitPeriod. -/
theorem startRitDataWaitPeriod_fields (s : MacSt) :
    (startRitDataWaitPeriod s).periodicRitDataRequestEvent = s.periodicRitDataRequestEvent ∧
      (startRitDataWaitPeriod s).ritMacMode = s.ritMacMode ∧
      (startRitDataWaitPeriod s).macState = .idle ∧
      (startRitDataWaitPeriod s).txPkt = s.txPkt := by
  simp only [startRitDataWaitPeriod]
  repeat' split
  all_goals simp

/-- Field effects of CheckTxAndStartSender: mode stays or becomes Sender,
base state stays or is forced Idle; periodic event and transmission slot
untouched. -/
theorem checkTx_fields (s : MacSt) :
    (checkTxAndStartSender s).2.periodicRitDataRequestEvent = s.periodicRitDataRequestEvent ∧
      ((checkTxAndStartSender s).2.ritMacMode = s.ritMacMode ∨
        (checkTxAndStartSender s).2.ritMacMode = .sender) ∧
      ((checkTxAndStartSender s).2.macState = s.macState ∨
        (checkTxAndStartSender s).2.macState = .idle) ∧
      (checkTxAndStartSender s).2.txPkt = s.txPkt := by
  simp only [checkTxAndStartSender, startRitTxWaitPeriod]
  repeat' split
  all_goals simp

/-- Field effects of the base CheckQueue dispatch. -/
theorem checkQueueBase_fields (s : MacSt) :
    (checkQueueBase s).periodicRitDataRequestEvent = s.periodicRitDataRequestEvent ∧
      (checkQueueBase s).ritMacMode = s.ritMacMode ∧
      (checkQueueBase s).macState = s.macState := by
  simp only [checkQueueBase]
  split
  · split <;> simp
  · simp

/-- Field effects of DoSendRitData: the mode and the periodic event are
untouched; the base state stays or enters Sending. -/
theorem doSendRitData_fields (s : MacSt) :
    (doSendRitData s).periodicRitDataRequestEvent = s.periodicRitDataRequestEvent ∧
      (doSendRitData s).ritMacMode = s.ritMacMode ∧
      ((doSendRitData s).macState = s.macState ∨ (doSendRitData s).macState = .sending) := by
  simp only [doSendRitData, checkQueueBase]
  repeat' split
  all_goals simp

/-- Field effects of DoSendRitDataRequest. -/
theorem doSendRitDataRequest_fields (s : MacSt) :
    (doSendRitDataRequest s).periodicRitDataRequestEvent = s.periodicRitDataRequestEvent ∧
      (doSendRitDataRequest s).ritMacMode = s.ritMacMode ∧
      ((doSendRitDataRequest s).macState = s.macState ∨
        (doSendRitDataRequest s).macState = .sending) := by
  simp only [doSendRitDataRequest]
  repeat' split
  all_goals simp

/-- Field effects of DoSendRitBeaconAck. -/
theorem doSendRitBeaconAck_fields (s : MacSt) :
    (doSendRitBeaconAck s).periodicRitDataRequestEvent = s.periodicRitDataRequestEvent ∧
      (doSendRitBeaconAck s).ritMacMode = s.ritMacMode := by
  simp [doSendRitBeaconAck]

/-- Field effects of SendRitData. -/
theorem sendRitData_fields (s : MacSt) :
    (sendRitData s).periodicRitDataRequestEvent = s.periodicRitDataRequestEvent ∧
      (sendRitData s).ritMacMode = s.ritMacMode := by
  simp only [sendRitData]
  split
  · split
    · simp [doSendRitBeaconAck]
    · have h := doSendRitData_fields { s with ritSending := true }
      exact ⟨by simpa using h.1, by simpa using h.2.1⟩
  · simp

/-- Field effects of the MLME-SET handler: the transmission slot is never
touched and the base state stays or is forced Idle. -/
theorem mlmeSet_state_fields (s : MacSt) (a : RitAttr) :
    ((mlmeSetRequest s a).macState = s.macState ∨ (mlmeSetRequest s a).macState = .idle) ∧
      (mlmeSetRequest s a).txPkt = s.txPkt := by
  cases a
  case dataWait v => simp [mlmeSetRequest]
  case txWait v => simp [mlmeSetRequest]
  case reqPayload p => simp [mlmeSetRequest]
  case dataWaitTime t => simp [mlmeSetRequest]
  case txWaitTime t => simp [mlmeSetRequest]
  case period v =>
    simp only [mlmeSetRequest, stopRitCycle, startRitCycle]
    repeat' split
    all_goals (try simp)
    all_goals tauto
  case periodTime t =>
    simp only [mlmeSetRequest, stopRitCycle, startRitCycle]
    repeat' split
    all_goals (try simp)
    all_goals tauto

/-- Field effects of McpsDataRequest: the periodic event and transmission
slot are untouched; the mode stays, or flips from Sleep to Sender; the
base state stays or is forced Idle. -/
theorem mcpsEnqueueFinish_fields (s : MacSt) (h : Nat) (f : Frame) :
    (mcpsEnqueueFinish s h f).periodicRitDataRequestEvent = s.periodicRitDataRequestEvent ∧
      ((mcpsEnqueueFinish s h f).ritMacMode = s.ritMacMode ∨
        (s.ritMacMode = .sleep ∧ (mcpsEnqueueFinish s h f).ritMacMode = .sender)) ∧
      ((mcpsEnqueueFinish s h f).macState = s.macState ∨
        (mcpsEnqueueFinish s h f).macState = .idle) ∧
      (mcpsEnqueueFinish s h f).txPkt = s.txPkt := by
  simp only [mcpsEnqueueFinish, checkTxAndStartSender, startRitTxWaitPeriod]
  repeat' split
  all_goals (try simp)
  all_goals (try simp_all)
  all_goals tauto

/-- The state produced by McpsDataRequest is the input state, the input
state with the DSN consumed, or the enqueue tail applied to it. -/
theorem mcps_result (s : MacSt) (params : McpsParams) (p : List Nat) :
    (mcpsDataRequest s params p).2 = s ∨
      (mcpsDataRequest s params p).2 = { s with macDsn := (s.macDsn + 1) % 256 } ∨
      ∃ fr, (mcpsDataRequest s params p).2 =
        mcpsEnqueueFinish { s with macDsn := (s.macDsn + 1) % 256 } params.msduHandle fr := by
  generalize hr : (mcpsDataRequest s params p).2 = r
  unfold mcpsDataRequest at hr
  repeat' split at hr
  all_goals first
    | exact Or.inl hr.symm
    | exact Or.inr (Or.inl hr.symm)
    | exact Or.inr (Or.inr ⟨_, hr.symm⟩)

theorem mcps_fields (s : MacSt) (params : McpsParams) (p : List Nat) :
    (mcpsDataRequest s params p).2.periodicRitDataRequestEvent = s.periodicRitDataRequestEvent ∧
      ((mcpsDataRequest s params p).2.ritMacMode = s.ritMacMode ∨
        (s.ritMacMode = .sleep ∧ (mcpsDataRequest s params p).2.ritMacMode = .sender)) ∧
      ((mcpsDataRequest s params p).2.macState = s.macState ∨
        (mcpsDataRequest s params p).2.macState = .idle) ∧
      (mcpsDataRequest s params p).2.txPkt = s.txPkt := by
  rcases mcps_result s params p with h | h | ⟨fr, h⟩ <;> rw [h]
  · simp
  · simp
  · simpa using
      mcpsEnqueueFinish_fields { s with macDsn := (s.macDsn + 1) % 256 } params.msduHandle fr

/-- Field effects of the scheduled state-change/SendAck execution: mode
and periodic event are untouched. -/
theorem execImmediate_fields (s : MacSt) (act : ImmediateAct) :
    (execImmediate s act).periodicRitDataRequestEvent = s.periodicRitDataRequestEvent ∧
      (execImmediate s act).ritMacMode = s.ritMacMode ∧
      (execImmediate s act).txQueue = s.txQueue := by
  cases act with
  | setState arg => cases arg <;> simp [execImmediate, setMacStateBase]
  | sendAck seq => simp [execImmediate]

/-- Field effects of ReceiveCommand: the TX-wait timeout, requester
bookkeeping and indication log aside, nothing changes. -/
theorem receiveCommand_fields (s : MacSt) (f : Frame) :
    (receiveCommand s f).periodicRitDataRequestEvent = s.periodicRitDataRequestEvent ∧
      (receiveCommand s f).ritMacMode = s.ritMacMode ∧
      (receiveCommand s f).macState = s.macState ∧
      (receiveCommand s f).txPkt = s.txPkt := by
  simp only [receiveCommand]
  repeat' split
  all_goals simp

/-- Field effects of ReceiveData: only the indication log changes. -/
theorem receiveData_fields (s : MacSt) (f : Frame) :
    (receiveData s f).periodicRitDataRequestEvent = s.periodicRitDataRequestEvent ∧
      (receiveData s f).ritMacMode = s.ritMacMode ∧
      (receiveData s f).macState = s.macState ∧
      (receiveData s f).txPkt = s.txPkt := by
  simp only [receiveData]
  split <;> simp

/-- Field effects of the acknowledged-data branch of PdDataIndication. -/
theorem rxDataAckBranch_fields (s1 : MacSt) (f : Frame) (lqi : Nat) :
    (rxDataAckBranch s1 f lqi).periodicRitDataRequestEvent = s1.periodicRitDataRequestEvent ∧
      (rxDataAckBranch s1 f lqi).ritMacMode = s1.ritMacMode ∧
      (rxDataAckBranch s1 f lqi).macState = .idle ∧
      ((rxDataAckBranch s1 f lqi).txPkt = s1.txPkt ∨ (rxDataAckBranch s1 f lqi).txPkt = none) := by
  simp only [rxDataAckBranch, prepareRetransmissionExhausted, removeFirstTxQElement]
  repeat' split
  all_goals simp

/-- Field effects of the ACK-completion branch of PdDataIndication. -/
theorem rxAckBranch_fields (s : MacSt) (f : Frame) :
    (rxAckBranch s f).periodicRitDataRequestEvent = s.periodicRitDataRequestEvent ∧
      ((rxAckBranch s f).ritMacMode = s.ritMacMode ∨ (rxAckBranch s f).ritMacMode = .sleep) ∧
      ((rxAckBranch s f).macState = s.macState ∨ (rxAckBranch s f).macState = .idle) ∧
      ((rxAckBranch s f).txPkt = s.txPkt ∨ (rxAckBranch s f).txPkt = none) := by
  simp only [rxAckBranch, removeFirstTxQElement, endSenderCycle, setSleep]
  repeat' split
  all_goals simp

/-- Field effects of PdDataIndication: the periodic event is untouched,
the mode stays unchanged or becomes Sleep (only when ending a cycle), the
base state stays or is forced Idle, and the transmission slot is kept or
cleared. -/
theorem pdIndication_fields (s : MacSt) (f : Frame) (lqi : Nat) :
    (pdDataIndication s f lqi).periodicRitDataRequestEvent = s.periodicRitDataRequestEvent ∧
      ((pdDataIndication s f lqi).ritMacMode = s.ritMacMode ∨
        (pdDataIndication s f lqi).ritMacMode = .sleep) ∧
      ((pdDataIndication s f lqi).macState = s.macState ∨
        (pdDataIndication s f lqi).macState = .idle) ∧
      ((pdDataIndication s f lqi).txPkt = s.txPkt ∨ (pdDataIndication s f lqi).txPkt = none) := by
  generalize hr : pdDataIndication s f lqi = r
  unfold pdDataIndication at hr
  repeat' split at hr
  all_goals subst hr
  all_goals (try simp)
  all_goals first
    | (rcases receiveCommand_fields s f with ⟨h1, h2, h3, h4⟩;
       exact ⟨h1, Or.inl h2, Or.inl h3, Or.inl h4⟩)
    | (rcases rxAckBranch_fields s f with ⟨h1, h2, h3, h4⟩; exact ⟨h1, h2, h3, h4⟩)
    | (rcases rxDataAckBranch_fields (receiveData s f) f lqi with ⟨h1, h2, h3, h4⟩;
       rcases receiveData_fields s f with ⟨g1, g2, g3, g4⟩;
       exact ⟨h1.trans g1, Or.inl (h2.trans g2), Or.inr h3,
         h4.imp (fun hh => hh.trans g4) (fun hh => hh)⟩)
    | (rcases endReceiverCycle_fields (receiveData s f) with ⟨h1, h2, h3, h4⟩;
       rcases receiveData_fields s f with ⟨g1, g2, g3, g4⟩;
       exact ⟨h1.trans g1, h2.elim (fun h => Or.inr h) (fun h => Or.inl (h.trans g2)),
         Or.inr h3, Or.inl (h4.trans g4)⟩)

/-- Field effects of PdDataConfirm: the periodic event is untouched, the
mode stays or becomes Sleep, and a failed confirm clears the transmission
slot. -/
theorem pdConfirm_fields (s : MacSt) (ok : Bool) :
    (pdDataConfirm s ok).periodicRitDataRequestEvent = s.periodicRitDataRequestEvent ∧
      ((pdDataConfirm s ok).ritMacMode = s.ritMacMode ∨ (pdDataConfirm s ok).ritMacMode = .sleep) ∧
      (ok = false → ((pdDataConfirm s ok).txPkt = s.txPkt ∨ (pdDataConfirm s ok).txPkt = none)) := by
  cases ok with
  | false =>
    have hfld : ∀ r, pdDataConfirm s false = r →
        r.periodicRitDataRequestEvent = s.periodicRitDataRequestEvent ∧
          (r.ritMacMode = s.ritMacMode ∨ r.ritMacMode = .sleep) ∧
          (r.txPkt = s.txPkt ∨ r.txPkt = none) := by
      intro r hr
      unfold pdDataConfirm at hr
      repeat' split at hr
      all_goals (try simp only [scheduleBottomIdle, confirmFrontSuccess, startRitDataWaitPeriod,
        removeFirstTxQElement, endSenderCycle, endReceiverCycle, setSleep] at hr)
      all_goals (repeat' split at hr)
      all_goals subst hr
      all_goals (try simp)
      all_goals (try simp_all)
    exact ⟨(hfld _ rfl).1, (hfld _ rfl).2.1, fun _ => (hfld _ rfl).2.2⟩
  | true =>
    have hfld : ∀ r, pdDataConfirm s true = r →
        r.periodicRitDataRequestEvent = s.periodicRitDataRequestEvent ∧
          (r.ritMacMode = s.ritMacMode ∨ r.ritMacMode = .sleep) := by
      intro r hr
      unfold pdDataConfirm at hr
      repeat' split at hr
      all_goals (try simp only [scheduleBottomIdle, confirmFrontSuccess, startRitDataWaitPeriod,
        removeFirstTxQElement, endSenderCycle, endReceiverCycle, setSleep] at hr)
      all_goals (repeat' split at hr)
      all_goals subst hr
      all_goals (try simp)
      all_goals (try simp_all)
      all_goals
        try exact ⟨by simpa using (doSendRitData_fields _).1,
          Or.inl (by simpa using (doSendRitData_fields _).2.1)⟩
    exact ⟨(hfld _ rfl).1, (hfld _ rfl).2, by simp⟩

/-- Field effects of AckWaitTimeout: the periodic event and queue-head
bookkeeping aside, the mode stays unchanged or, from Sender, becomes
Sleep; the base state ends Idle or unchanged; the slot is kept or
cleared. -/
theorem ackWaitTimeoutFn_fields (s : MacSt) :
    (ackWaitTimeoutFn s).periodicRitDataRequestEvent = s.periodicRitDataRequestEvent ∧
      ((ackWaitTimeoutFn s).ritMacMode = s.ritMacMode ∨
        (s.ritMacMode = .sender ∧ (ackWaitTimeoutFn s).ritMacMode = .sleep)) ∧
      ((ackWaitTimeoutFn s).macState = s.macState ∨ (ackWaitTimeoutFn s).macState = .idle) ∧
      ((ackWaitTimeoutFn s).txPkt = s.txPkt ∨ (ackWaitTimeoutFn s).txPkt = none) := by
  generalize hr : ackWaitTimeoutFn s = r
  unfold ackWaitTimeoutFn at hr
  repeat' split at hr
  all_goals (try simp only [prepareRetransmissionExhausted, removeFirstTxQElement,
    endSenderCycle, setSleep] at hr)
  all_goals (repeat' split at hr)
  all_goals subst hr
  all_goals (try simp)
  all_goals (try simp_all)
  all_goals (try tauto)

/-- Field effects of the CHANNEL_ACCESS_FAILURE handler. -/
theorem chanAccessFailureFn_fields (s : MacSt) :
    (channelAccessFailureFn s).periodicRitDataRequestEvent = s.periodicRitDataRequestEvent ∧
      ((channelAccessFailureFn s).ritMacMode = s.ritMacMode ∨
        (channelAccessFailureFn s).ritMacMode = .sleep) ∧
      ((channelAccessFailureFn s).macState = s.macState ∨
        (channelAccessFailureFn s).macState = .idle) ∧
      ((channelAccessFailureFn s).txPkt = s.txPkt ∨ (channelAccessFailureFn s).txPkt = none) := by
  generalize hr : channelAccessFailureFn s = r
  unfold channelAccessFailureFn at hr
  repeat' split at hr
  all_goals (try simp only [removeFirstTxQElement, endSenderCycle, endReceiverCycle,
    setSleep] at hr)
  all_goals (repeat' split at hr)
  all_goals subst hr
  all_goals (try simp)
  all_goals (try simp_all)
  all_goals (try tauto)

/-- The periodic-event invariant follows from a pending event together
with a non-Disabled mode. -/
theorem inv_of_pending (t : MacSt) (h1 : t.periodicRitDataRequestEvent.isSome = true)
    (h2 : t.ritMacMode ≠ .disabled) : periodicPendingInv t :=
  ⟨fun _ => h2, fun _ => h1⟩

/-- The periodic-event invariant follows from a cancelled event together
with the Disabled mode. -/
theorem inv_of_stopped (t : MacSt) (h1 : t.periodicRitDataRequestEvent = none)
    (h2 : t.ritMacMode = .disabled) : periodicPendingInv t := by
  unfold periodicPendingInv
  rw [h1, h2]
  simp

/-- The periodic-event invariant transfers along a step that keeps the
event and either keeps the mode or moves between non-Disabled modes. -/
theorem inv_of_fields (s t : MacSt)
    (h1 : t.periodicRitDataRequestEvent = s.periodicRitDataRequestEvent)
    (h2 : t.ritMacMode = s.ritMacMode ∨
      (s.ritMacMode ≠ .disabled ∧ t.ritMacMode ≠ .disabled))
    (hinv : periodicPendingInv s) : periodicPendingInv t := by
  unfold periodicPendingInv at *
  rw [h1]
  rcases h2 with h | ⟨ha, hb⟩
  · rw [h]; exact hinv
  · exact ⟨fun _ => hb, fun _ => hinv.mpr ha⟩

/-- A successful CheckTxAndStartSender enters Sender mode and keeps the
periodic event and the transmission slot. -/
theorem checkTx_true_fields (s : MacSt) (h : (checkTxAndStartSender s).1 = true) :
    (checkTxAndStartSender s).2.ritMacMode = .sender ∧
      (checkTxAndStartSender s).2.periodicRitDataRequestEvent = s.periodicRitDataRequestEvent ∧
      (checkTxAndStartSender s).2.txPkt = s.txPkt := by
  by_cases hq : s.txQueue.isEmpty = true
  · simp [checkTxAndStartSender, hq] at h
  · rcases startRitTxWaitPeriod_fields { s with ritMacMode := RitMacMode.sender } with ⟨h1, h2, h3, h4⟩
    simp [checkTxAndStartSender, hq, h1, h2, h4]

/-- A failed CheckTxAndStartSender is a no-op on an empty queue. -/
theorem checkTx_false_eq (s : MacSt) (h : (checkTxAndStartSender s).1 = false) :
    (checkTxAndStartSender s).2 = s ∧ s.txQueue = [] := by
  by_cases hq : s.txQueue.isEmpty = true
  · refine ⟨by simp [checkTxAndStartSender, hq], by simpa using hq⟩
  · simp [checkTxAndStartSender, hq] at h

/-- DoSendRitDataRequest keeps the periodic event. -/
theorem doSendRitDataRequest_periodic (s : MacSt) :
    (doSendRitDataRequest s).periodicRitDataRequestEvent = s.periodicRitDataRequestEvent :=
  (doSendRitDataRequest_fields s).1

/-- DoSendRitDataRequest keeps the RIT mode. -/
theorem doSendRitDataRequest_mode (s : MacSt) :
    (doSendRitDataRequest s).ritMacMode = s.ritMacMode :=
  (doSendRitDataRequest_fields s).2.1

/-- After PeriodicRitDataRequest the periodic event is always pending
again and the mode is never Disabled (it is Sender on the skip path,
Sender after a queue-driven start, Receiver on the request path). -/
theorem periodicFire_inv (s : MacSt) (nextIv : ℚ) :
    (periodicRitDataRequest s nextIv).periodicRitDataRequestEvent.isSome = true ∧
      (periodicRitDataRequest s nextIv).ritMacMode ≠ RitMacMode.disabled := by
  simp only [periodicRitDataRequest]
  split
  · simp_all
  · split
    · rename_i h h2
      rcases checkTx_true_fields _ h2 with ⟨g1, g2, g3⟩
      rw [g2, g1]
      simp
    · rw [doSendRitDataRequest_periodic, doSendRitDataRequest_mode]
      simp

/-- MLME-SET preserves the periodic-event invariant: a zero period stops
the cycle (event cancelled, mode Disabled), a positive period from
Disabled starts it (event scheduled, mode Sleep) unless deferred, and all
other attributes leave both fields alone. -/
theorem mlmeSet_inv (s : MacSt) (a : RitAttr) (hinv : periodicPendingInv s) :
    periodicPendingInv (mlmeSetRequest s a) := by
  cases a with
  | period v =>
      simp only [mlmeSetRequest]
      split
      · exact inv_of_stopped _ rfl rfl
      · split
        · simp only [startRitCycle]
          split
          · simpa [periodicPendingInv] using hinv
          · exact inv_of_pending _ (by simp) (by simp)
        · simpa [periodicPendingInv] using hinv
  | dataWait v => simpa [periodicPendingInv, mlmeSetRequest] using hinv
  | txWait v => simpa [periodicPendingInv, mlmeSetRequest] using hinv
  | reqPayload p => simpa [periodicPendingInv, mlmeSetRequest] using hinv
  | periodTime t =>
      simp only [mlmeSetRequest]
      split
      · exact inv_of_stopped _ rfl rfl
      · split
        · simp only [startRitCycle]
          split
          · simpa [periodicPendingInv] using hinv
          · exact inv_of_pending _ (by simp) (by simp)
        · simpa [periodicPendingInv] using hinv
  | dataWaitTime t => simpa [periodicPendingInv, mlmeSetRequest] using hinv
  | txWaitTime t => simpa [periodicPendingInv, mlmeSetRequest] using hinv

/-- With a non-positive RIT period, PdDataIndication ignores the frame. -/
theorem pdDataIndication_not_enabled (s : MacSt) (f : Frame) (lqi : Nat)
    (h : isRitModeEnabled s = false) : pdDataIndication s f lqi = s := by
  unfold pdDataIndication
  simp [h]

/-- With a non-positive RIT period, PdDataConfirm ignores the confirm. -/
theorem pdDataConfirm_not_enabled (s : MacSt) (ok : Bool)
    (h : isRitModeEnabled s = false) : pdDataConfirm s ok = s := by
  unfold pdDataConfirm
  simp [h]

/-- IfsWaitTimeout preserves the periodic-event invariant. -/
theorem ifsWaitTimeoutFn_inv (s : MacSt) (hinv : periodicPendingInv s) :
    periodicPendingInv (ifsWaitTimeoutFn s) := by
  by_cases hm : s.ritMacMode = .sender
  · have he : ifsWaitTimeoutFn s = doSendRitData s := by simp [ifsWaitTimeoutFn, hm]
    rw [he]
    exact inv_of_fields s _ (doSendRitData_fields s).1 (Or.inl (doSendRitData_fields s).2.1) hinv
  · by_cases hm2 : s.ritMacMode = .sleep
    · have he : ifsWaitTimeoutFn s = (checkTxAndStartSender s).2 := by
        simp [ifsWaitTimeoutFn, hm, hm2]
      rw [he]
      rcases checkTx_fields s with ⟨h1, h2, h3, h4⟩
      refine inv_of_fields s _ h1 ?_ hinv
      rcases h2 with h | h
      · exact Or.inl h
      · exact Or.inr ⟨by simp [hm2], by simp [h]⟩
    · have he : ifsWaitTimeoutFn s = s := by simp [ifsWaitTimeoutFn, hm, hm2]
      rw [he]
      exact inv_of_fields s s rfl (Or.inl rfl) hinv

/-- The two C6 obligations for a step from `s` to `t` follow whenever the
base state stays or is forced Idle and the slot is kept or cleared. -/
theorem c6_of_fields (s t : MacSt) (C : Prop)
    (hA : t.macState = s.macState ∨ t.macState = .idle)
    (hB : t.txPkt = s.txPkt ∨ t.txPkt = none) :
    (t.macState = .sending → s.macState = .idle ∨ s.macState = .sending) ∧
      (∀ f, t.txPkt = some f → s.txPkt = some f ∨ C) := by
  constructor
  · intro hs
    rcases hA with h | h
    · rw [h] at hs; exact Or.inr hs
    · rw [h] at hs; exact absurd hs (by simp)
  · intro f hf
    rcases hB with h | h
    · rw [h] at hf; exact Or.inl hf
    · rw [h] at hf; exact absurd hf (by simp)

/-- Lifting the two-predecessor form of the C6 obligations into the
three-predecessor form that admits a Sending entry from CSMA. -/
theorem c6_lift (s t : MacSt) (C : Prop)
    (h : (t.macState = .sending → s.macState = .idle ∨ s.macState = .sending) ∧
      (∀ f, t.txPkt = some f → s.txPkt = some f ∨ C)) :
    (t.macState = .sending →
        s.macState = .idle ∨ s.macState = .csma ∨ s.macState = .sending) ∧
      (∀ f, t.txPkt = some f → s.txPkt = some f ∨ C) :=
  ⟨fun hs => (h.1 hs).elim Or.inl (fun x => Or.inr (Or.inr x)), h.2⟩

/-- The C6 obligations for PeriodicRitDataRequest: the direct RIT Data
Request transmission only happens with an empty queue from a non-Sender
mode, where the firing guard forces an Idle base state. -/
theorem periodicFire_c6 (s : MacSt) (nextIv : ℚ)
    (hidle : s.ritMacMode ≠ .sender → s.txQueue = [] → s.macState = .idle) :
    ((periodicRitDataRequest s nextIv).macState = .sending →
        s.macState = .idle ∨ s.macState = .sending) ∧
      (∀ f, (periodicRitDataRequest s nextIv).txPkt = some f →
        s.txPkt = some f ∨ s.macState = .idle) := by
  simp only [periodicRitDataRequest]
  split
  · exact c6_of_fields _ _ _ (Or.inl rfl) (Or.inl rfl)
  · split
    · rename_i h h2
      rcases checkTx_fields { s with periodicRitDataRequestEvent := some (s.now + nextIv) } with
        ⟨k1, k2, k3, k4⟩
      exact c6_of_fields _ _ _ k3 (Or.inl k4)
    · rename_i h h2
      have hq : s.txQueue = [] :=
        (checkTx_false_eq { s with periodicRitDataRequestEvent := some (s.now + nextIv) }
          (by simpa using h2)).2
      have hmode : s.ritMacMode ≠ .sender := by simpa using h
      have hidle2 : s.macState = .idle := hidle hmode hq
      exact ⟨fun _ => Or.inl hidle2, fun f _ => Or.inr hidle2⟩

/-- The C6 obligations for IfsWaitTimeout: the Sender-mode dispatch is
guarded by an Idle base state. -/
theorem ifsFire_c6 (s : MacSt)
    (hsq : s.ritMacMode = .sender → s.txQueue ≠ [] ∧ s.macState = .idle) :
    ((ifsWaitTimeoutFn s).macState = .sending → s.macState = .idle ∨ s.macState = .sending) ∧
      (∀ f, (ifsWaitTimeoutFn s).txPkt = some f → s.txPkt = some f ∨ s.macState = .idle) := by
  by_cases hm : s.ritMacMode = .sender
  · have hidle := (hsq hm).2
    exact ⟨fun _ => Or.inl hidle, fun f _ => Or.inr hidle⟩
  · by_cases hm2 : s.ritMacMode = .sleep
    · have he : ifsWaitTimeoutFn s = (checkTxAndStartSender s).2 := by
        simp [ifsWaitTimeoutFn, hm, hm2]
      rw [he]
      rcases checkTx_fields s with ⟨k1, k2, k3, k4⟩
      exact c6_of_fields _ _ _ k3 (Or.inl k4)
    · have he : ifsWaitTimeoutFn s = s := by simp [ifsWaitTimeoutFn, hm, hm2]
      rw [he]
      exact c6_of_fields _ _ _ (Or.inl rfl) (Or.inl rfl)

/-- The C6 obligations for the scheduled state-change execution: a
scheduled state change (never CHANNEL_IDLE) does not enter Sending, and
SendAck is guarded by an Idle state. -/
theorem stateEvent_c6 (s : MacSt) (act : ImmediateAct)
    (hack : ∀ seq, act = .sendAck seq → s.macState = .idle)
    (hni : act ≠ .setState .chanIdle) :
    ((execImmediate s act).macState = .sending → s.macState = .idle ∨ s.macState = .sending) ∧
      (∀ f, (execImmediate s act).txPkt = some f → s.txPkt = some f ∨ s.macState = .idle) := by
  cases act with
  | setState arg =>
      cases arg
      case chanIdle => exact absurd rfl hni
      all_goals
        exact ⟨fun h => absurd h (by simp [execImmediate, setMacStateBase]),
          fun f hf => Or.inl (by simpa [execImmediate, setMacStateBase] using hf)⟩
  | sendAck seq =>
      have hidle := hack seq rfl
      exact ⟨fun _ => Or.inl hidle, fun f _ => Or.inr hidle⟩

/-- The C6 obligations for SendRitData: the transmission paths only run
from an Idle base state. -/
theorem sendRitData_c6 (s : MacSt) :
    ((sendRitData s).macState = .sending → s.macState = .idle ∨ s.macState = .sending) ∧
      (∀ f, (sendRitData s).txPkt = some f → s.txPkt = some f ∨ s.macState = .idle) := by
  by_cases hm : s.macState = .idle
  · exact ⟨fun _ => Or.inl hm, fun f _ => Or.inr hm⟩
  · have he : sendRitData s = s := by simp [sendRitData, hm]
    rw [he]
    exact c6_of_fields _ _ _ (Or.inl rfl) (Or.inl rfl)

/-- C3 (counterexample to the claim as stated): `DoInitialize` on the
freshly constructed MAC — whose period defaults to five seconds, so the
MAC is enabled — is a step of the system after which the RIT mode is
Sleep (not Disabled) while no periodic RIT data request event is pending:
the claimed equivalence fails on an enabled MAC between event
executions. -/
theorem c3_doinit_counterexample :
    RitStep RitOp.doInit initMacSt (doInitStep initMacSt) ∧
      isRitModeEnabled (doInitStep initMacSt) = true ∧
      ¬ periodicPendingInv (doInitStep initMacSt) :=
  ⟨RitStep.doInit initMacSt, by decide,
    by simp [periodicPendingInv, doInitStep, initMacSt]⟩

/-- C3 (amended: `DoInitialize` run while the mode is Disabled is the one
exception — it forces Sleep without scheduling the periodic event): the
periodic-event invariant `pending(periodic event) ↔ mode ≠ Disabled`
holds in the constructed state and is preserved by every operation of the
RIT MAC other than a `doInit` from Disabled. -/
theorem c3_periodic_pending_invariant :
    periodicPendingInv initMacSt ∧
      ∀ op s s2, RitStep op s s2 →
        (op = RitOp.doInit → s.ritMacMode ≠ RitMacMode.disabled) →
        periodicPendingInv s → periodicPendingInv s2 := by
  constructor
  · exact inv_of_stopped initMacSt rfl rfl
  · intro op s s2 hstep hdi hinv
    cases hstep with
    | mlmeSet a s => exact mlmeSet_inv s a hinv
    | doInit s =>
        exact inv_of_fields s (doInitStep s) rfl
          (Or.inr ⟨hdi rfl, by simp [doInitStep]⟩) hinv
    | periodicFire nextIv tf s hp hen hidle =>
        exact inv_of_pending _
          (periodicFire_inv { s with now := tf, periodicRitDataRequestEvent := none } nextIv).1
          (periodicFire_inv { s with now := tf, periodicRitDataRequestEvent := none } nextIv).2
    | mcpsRequest params p s =>
        rcases mcps_fields s params p with ⟨h1, h2, h3, h4⟩
        refine inv_of_fields s _ h1 ?_ hinv
        rcases h2 with h | ⟨ha, hb⟩
        · exact Or.inl h
        · exact Or.inr ⟨by simp [ha], by simp [hb]⟩
    | dataWaitFire tf s hp hmode =>
        have hinv0 : periodicPendingInv { s with now := tf, ritDataWaitTimeout := none } := by
          simpa [periodicPendingInv] using hinv
        rcases endReceiverCycle_fields { s with now := tf, ritDataWaitTimeout := none } with
          ⟨h1, h2, h3, h4⟩
        refine inv_of_fields _ _ h1 ?_ hinv0
        rcases h2 with h | h
        · exact Or.inr ⟨by simp [hmode], by simp [h]⟩
        · exact Or.inl h
    | txWaitFire tf s hp hmode =>
        have hinv0 : periodicPendingInv { s with now := tf, ritTxWaitTimeout := none } := by
          simpa [periodicPendingInv] using hinv
        rcases endSenderCycle_fields { s with now := tf, ritTxWaitTimeout := none } with
          ⟨h1, h2, h3, h4⟩
        refine inv_of_fields _ _ h1 ?_ hinv0
        rcases h2 with h | h
        · exact Or.inr ⟨by simp [hmode], by simp [h]⟩
        · exact Or.inl h
    | ackWaitFire tf s hp =>
        have hinv0 : periodicPendingInv { s with now := tf, ackWaitTimeout := none } := by
          simpa [periodicPendingInv] using hinv
        rcases ackWaitTimeoutFn_fields { s with now := tf, ackWaitTimeout := none } with
          ⟨h1, h2, h3, h4⟩
        refine inv_of_fields _ _ h1 ?_ hinv0
        rcases h2 with h | ⟨ha, hb⟩
        · exact Or.inl h
        · exact Or.inr ⟨by rw [ha]; simp, by rw [hb]; simp⟩
    | ifsFire tf s hp hsq =>
        have hinv0 : periodicPendingInv { s with now := tf, ifsEvent := none } := by
          simpa [periodicPendingInv] using hinv
        exact ifsWaitTimeoutFn_inv _ hinv0
    | stateEventFire act s hp hack hni =>
        have hinv0 : periodicPendingInv { s with setMacState := none } := by
          simpa [periodicPendingInv] using hinv
        rcases execImmediate_fields { s with setMacState := none } act with ⟨h1, h2, h3⟩
        exact inv_of_fields _ _ h1 (Or.inl h2) hinv0
    | pdIndication f lqi s hst hmd =>
        by_cases hen : isRitModeEnabled s = true
        · rcases pdIndication_fields s f lqi with ⟨h1, h2, h3, h4⟩
          refine inv_of_fields s _ h1 ?_ hinv
          rcases h2 with h | h
          · exact Or.inl h
          · exact Or.inr ⟨hmd hen, by rw [h]; simp⟩
        · rw [pdDataIndication_not_enabled s f lqi (by simpa using hen)]
          exact hinv
    | pdConfirm ok s hst hmd =>
        by_cases hen : isRitModeEnabled s = true
        · rcases pdConfirm_fields s ok with ⟨h1, h2, h3⟩
          refine inv_of_fields s _ h1 ?_ hinv
          rcases h2 with h | h
          · exact Or.inl h
          · exact Or.inr ⟨hmd hen, by rw [h]; simp⟩
        · rw [pdDataConfirm_not_enabled s ok (by simpa using hen)]
          exact hinv
    | sendRitDataCall s hmode hq =>
        exact inv_of_fields s _ (sendRitData_fields s).1
          (Or.inl (sendRitData_fields s).2) hinv
    | chanAccessFailure s hst hen hmd =>
        rcases chanAccessFailureFn_fields s with ⟨h1, h2, h3, h4⟩
        refine inv_of_fields s _ h1 ?_ hinv
        rcases h2 with h | h
        · exact Or.inl h
        · exact Or.inr ⟨hmd, by rw [h]; simp⟩
    | chanAccessSuccess s hst =>
        exact inv_of_fields s _ rfl (Or.inl rfl) hinv

/-- Witness for C3: the invariant holds in the constructed state and is
carried across the concrete step MLME-SET(macRitPeriodTime := 0). -/
theorem c3_periodic_pending_invariant_witness :
    periodicPendingInv (mlmeSetRequest initMacSt (RitAttr.periodTime 0)) :=
  c3_periodic_pending_invariant.2 (RitOp.mlmeSet (RitAttr.periodTime 0)) initMacSt
    (mlmeSetRequest initMacSt (RitAttr.periodTime 0))
    (RitStep.mlmeSet (RitAttr.periodTime 0) initMacSt)
    (fun h => RitOp.noConfusion h)
    c3_periodic_pending_invariant.1

/-- C6 (counterexample to the claim as stated): a successful channel
access — `CHANNEL_IDLE` delivered by the Pre-CS CCA-confirm callback
(rit-wpan-precs.cc:136, wired to `RitWpanMac::SetLrWpanMacState` at
rit-wpan-net-device.cc:181-184 and delegated to the base CSMA branch) —
is a step of the system that enters Sending while the immediately prior
base-MAC state is CSMA, not Idle. -/
theorem c6_csma_counterexample :
    RitStep RitOp.chanAccessSuccess { initMacSt with macState := MacBaseState.csma }
        (setMacStateBase { initMacSt with macState := MacBaseState.csma } SetStateArg.chanIdle) ∧
      (setMacStateBase { initMacSt with macState := MacBaseState.csma }
        SetStateArg.chanIdle).macState = MacBaseState.sending ∧
      ({ initMacSt with macState := MacBaseState.csma } : MacSt).macState ≠ MacBaseState.idle :=
  ⟨RitStep.chanAccessSuccess _ rfl, rfl, by simp⟩

/-- C6 (amended: a successful channel access also enters Sending, from
CSMA): along every operation of the RIT MAC, (a) the base MAC is in
Sending after the step only if it was Idle (the SendAck/direct-TX entry
points, all guarded on Idle), or in CSMA (the CHANNEL_IDLE channel-access
success delegated to the base CSMA → Sending transition), or already
Sending before it, and (b) the `m_txPkt` slot holds a frame after the
step only if it already held that frame, or the step started from Idle
with no transmission in flight, or the step is a successful
PdDataConfirm — the continuous-TX path, which dispatches the next queued
frame only after completing (and confirming) the one the slot held. -/
theorem c6_single_transmission (op : RitOp) (s s2 : MacSt) (hstep : RitStep op s s2) :
    (s2.macState = .sending →
        s.macState = .idle ∨ s.macState = .csma ∨ s.macState = .sending) ∧
      (∀ f, s2.txPkt = some f →
        s.txPkt = some f ∨ s.macState = .idle ∨ op = RitOp.pdConfirm true) := by
  cases hstep with
  | mlmeSet a s =>
      exact c6_lift _ _ _ (c6_of_fields _ _ _ (mlmeSet_state_fields s a).1
        (Or.inl (mlmeSet_state_fields s a).2))
  | doInit s => exact c6_lift _ _ _ (c6_of_fields _ _ _ (Or.inl rfl) (Or.inl rfl))
  | periodicFire nextIv tf s hp hen hidle =>
      have h := periodicFire_c6 { s with now := tf, periodicRitDataRequestEvent := none } nextIv
        (fun hm hq => hidle hm hq)
      refine ⟨fun hs => (h.1 hs).elim Or.inl (fun x => Or.inr (Or.inr x)), fun f hf => ?_⟩
      rcases h.2 f hf with h' | h'
      · exact Or.inl h'
      · exact Or.inr (Or.inl h')
  | mcpsRequest params p s =>
      rcases mcps_fields s params p with ⟨h1, h2, h3, h4⟩
      exact c6_lift _ _ _ (c6_of_fields _ _ _ h3 (Or.inl h4))
  | dataWaitFire tf s hp hmode =>
      rcases endReceiverCycle_fields { s with now := tf, ritDataWaitTimeout := none } with
        ⟨h1, h2, h3, h4⟩
      exact c6_lift _ _ _ (c6_of_fields _ _ _ (Or.inr h3) (Or.inl h4))
  | txWaitFire tf s hp hmode =>
      rcases endSenderCycle_fields { s with now := tf, ritTxWaitTimeout := none } with
        ⟨h1, h2, h3, h4⟩
      exact c6_lift _ _ _ (c6_of_fields _ _ _ (Or.inr h3) (Or.inl h4))
  | ackWaitFire tf s hp =>
      rcases ackWaitTimeoutFn_fields { s with now := tf, ackWaitTimeout := none } with
        ⟨h1, h2, h3, h4⟩
      exact c6_lift _ _ _ (c6_of_fields _ _ _ h3 h4)
  | ifsFire tf s hp hsq =>
      have h := ifsFire_c6 { s with now := tf, ifsEvent := none } (fun hm => hsq hm)
      refine ⟨fun hs => (h.1 hs).elim Or.inl (fun x => Or.inr (Or.inr x)), fun f hf => ?_⟩
      rcases h.2 f hf with h' | h'
      · exact Or.inl h'
      · exact Or.inr (Or.inl h')
  | stateEventFire act s hp hack hni =>
      have h := stateEvent_c6 { s with setMacState := none } act
        (fun seq hs => hack seq hs) hni
      refine ⟨fun hs => (h.1 hs).elim Or.inl (fun x => Or.inr (Or.inr x)), fun f hf => ?_⟩
      rcases h.2 f hf with h' | h'
      · exact Or.inl h'
      · exact Or.inr (Or.inl h')
  | pdIndication f lqi s hst hmd =>
      rcases pdIndication_fields s f lqi with ⟨h1, h2, h3, h4⟩
      exact c6_lift _ _ _ (c6_of_fields _ _ _ h3 h4)
  | pdConfirm ok s hst hmd =>
      cases ok with
      | true =>
          exact ⟨fun _ => Or.inr (Or.inr hst), fun f _ => Or.inr (Or.inr rfl)⟩
      | false =>
          refine ⟨fun _ => Or.inr (Or.inr hst), fun f hf => ?_⟩
          rcases (pdConfirm_fields s false).2.2 rfl with h | h
          · rw [h] at hf; exact Or.inl hf
          · rw [h] at hf; exact absurd hf (by simp)
  | sendRitDataCall s hmode hq =>
      have h := sendRitData_c6 s
      refine ⟨fun hs => (h.1 hs).elim Or.inl (fun x => Or.inr (Or.inr x)), fun f hf => ?_⟩
      rcases h.2 f hf with h' | h'
      · exact Or.inl h'
      · exact Or.inr (Or.inl h')
  | chanAccessFailure s hst hen hmd =>
      rcases chanAccessFailureFn_fields s with ⟨h1, h2, h3, h4⟩
      exact c6_lift _ _ _ (c6_of_fields _ _ _ h3 h4)
  | chanAccessSuccess s hst =>
      exact ⟨fun _ => Or.inr (Or.inl hst),
        fun f hf => Or.inl (by simpa [setMacStateBase] using hf)⟩

/-- Witness for C6 at the concrete step DoInitialize from the constructed
state. -/
theorem c6_single_transmission_witness :
    ((doInitStep initMacSt).macState = .sending →
        initMacSt.macState = .idle ∨ initMacSt.macState = .csma ∨
          initMacSt.macState = .sending) ∧
      (∀ f, (doInitStep initMacSt).txPkt = some f →
        initMacSt.txPkt = some f ∨ initMacSt.macState = .idle ∨
          RitOp.doInit = RitOp.pdConfirm true) :=
  c6_single_transmission RitOp.doInit initMacSt (doInitStep initMacSt)
    (RitStep.doInit initMacSt)

end RitWpan
